import Mathlib

/-!
Verification of the vehicle drivetrain library (tire-size decoding and
drivetrain speed/RPM/torque formulas) against its specification.

The source operates on IEEE-754 binary64 values.  We model binary64
shallowly: a float is either a finite dyadic rational `m * 2^e`, a signed
infinity, or NaN, and every arithmetic operation rounds its exact rational
result to nearest, ties to even, exactly as IEEE-754 prescribes for
binary64 (53-bit significands, exponents down to -1074, overflow past
`2^1024` to infinity).  Negative zero is not distinguished from positive
zero; no computation in this development produces or branches on a
negative zero.
-/

set_option maxRecDepth 100000
set_option exponentiation.threshold 1100

attribute [local semireducible] Rat.mul Rat.add Rat.sub Rat.inv Rat.ofScientific

/-- Equality of `Except` values is decidable when it is on both components. -/
instance {ε α : Type} [DecidableEq ε] [DecidableEq α] : DecidableEq (Except ε α) := fun a b =>
  match a, b with
  | .ok x, .ok y =>
      if h : x = y then .isTrue (h ▸ rfl) else .isFalse (fun hc => h (Except.ok.inj hc))
  | .ok _, .error _ => .isFalse (fun hc => Except.noConfusion hc)
  | .error _, .ok _ => .isFalse (fun hc => Except.noConfusion hc)
  | .error x, .error y =>
      if h : x = y then .isTrue (h ▸ rfl) else .isFalse (fun hc => h (Except.error.inj hc))

/-- `2^k` as a rational, computed through `Nat.pow` and `mkRat` so that it
evaluates fast inside the kernel (no unary recursion on the exponent). -/
def q2z (k : ℤ) : ℚ :=
  if 0 ≤ k then mkRat ((2 ^ k.toNat : ℕ) : ℤ) 1 else mkRat 1 (2 ^ (-k).toNat)

/-- A binary64 floating-point datum: a finite dyadic value `m * 2^e`,
a signed infinity, or NaN. -/
inductive F64 : Type
  | finite (m : ℤ) (e : ℤ)
  | inf (neg : Bool)
  | nan
  deriving DecidableEq, Repr

namespace F64

/-- The exact rational value of a finite float (0 for infinities and NaN). -/
def toQ : F64 → ℚ
  | .finite m e => (m : ℚ) * q2z e
  | .inf _ => 0
  | .nan => 0

/-- Is the float finite? -/
def isFinite : F64 → Bool
  | .finite _ _ => true
  | _ => false

/-- Is the float an infinity or NaN? -/
def isInfOrNan : F64 → Bool
  | .finite _ _ => false
  | _ => true

/-- IEEE-754 equality (`==` on `f64`): NaN compares unequal to everything,
finite values compare by numeric value. -/
def feq : F64 → F64 → Bool
  | .nan, _ => false
  | _, .nan => false
  | .inf s, .inf t => s == t
  | .inf _, .finite _ _ => false
  | .finite _ _, .inf _ => false
  | .finite m e, .finite m' e' => decide ((m : ℚ) * q2z e = (m' : ℚ) * q2z e')

/-- IEEE-754 strict less-than (`<` on `f64`): false on any NaN operand. -/
def fltB : F64 → F64 → Bool
  | .nan, _ => false
  | _, .nan => false
  | .inf s, .inf t => s && !t
  | .inf s, .finite _ _ => s
  | .finite _ _, .inf t => !t
  | .finite m e, .finite m' e' => decide ((m : ℚ) * q2z e < (m' : ℚ) * q2z e')

end F64

/-- Floor of the base-2 logarithm of a natural number, fuel-driven so that it
reduces by structural recursion (`nlog2F fuel n` is correct when `n ≤ fuel`). -/
def nlog2F : ℕ → ℕ → ℕ
  | 0, _ => 0
  | f + 1, n => if n ≤ 1 then 0 else nlog2F f (n / 2) + 1

/-- Floor of the base-2 logarithm of a natural number. -/
def nlog2 (n : ℕ) : ℕ := nlog2F n n

/-- Floor of the base-2 logarithm of a positive rational. -/
def rlog2 (q : ℚ) : ℤ :=
  let k0 : ℤ := (nlog2 q.num.toNat : ℤ) - (nlog2 q.den : ℤ)
  if q < q2z k0 then k0 - 1 else k0

/-- Round a rational to the nearest integer, ties to even. -/
def rne (q : ℚ) : ℤ :=
  if q - (⌊q⌋ : ℚ) < 1/2 then ⌊q⌋
  else if (1:ℚ)/2 < q - (⌊q⌋ : ℚ) then ⌊q⌋ + 1
  else if ⌊q⌋ % 2 = 0 then ⌊q⌋ else ⌊q⌋ + 1

/-- Round a rational to the nearest integer, ties away from zero
(the semantics of Rust's `f64::round`). -/
def rhaz (q : ℚ) : ℤ :=
  if 0 ≤ q then ⌊q + 1/2⌋ else -⌊-q + 1/2⌋

/-- The binary64 rounding exponent chosen for a nonzero rational. -/
def preE (q : ℚ) : ℤ := max (rlog2 |q| - 52) (-1074)

/-- The rounded significand of a nonzero rational at exponent `preE q`. -/
def preM (q : ℚ) : ℤ := rne (q / q2z (preE q))

/-- Final significand after renormalizing a rounding carry. -/
def expM (q : ℚ) : ℤ := if (preM q).natAbs = 2 ^ 53 then preM q / 2 else preM q

/-- Final exponent after renormalizing a rounding carry. -/
def expE (q : ℚ) : ℤ := if (preM q).natAbs = 2 ^ 53 then preE q + 1 else preE q

/-- Round an exact rational to the nearest binary64 value (ties to even),
overflowing to infinity exactly when IEEE-754 binary64 does. -/
def flq (q : ℚ) : F64 :=
  if q = 0 then .finite 0 0
  else if 971 < expE q then .inf (decide (q < 0)) else .finite (expM q) (expE q)

namespace F64

/-- IEEE-754 binary64 multiplication on the model. -/
def fmul : F64 → F64 → F64
  | .nan, _ => .nan
  | _, .nan => .nan
  | .inf s, .inf t => .inf (xor s t)
  | .inf s, .finite m _ => if m = 0 then .nan else .inf (xor s (decide (m < 0)))
  | .finite m _, .inf t => if m = 0 then .nan else .inf (xor (decide (m < 0)) t)
  | .finite m e, .finite m' e' => flq (((m : ℚ) * q2z e) * ((m' : ℚ) * q2z e'))

/-- IEEE-754 binary64 addition on the model. -/
def fadd : F64 → F64 → F64
  | .nan, _ => .nan
  | _, .nan => .nan
  | .inf s, .inf t => if s = t then .inf s else .nan
  | .inf s, .finite _ _ => .inf s
  | .finite _ _, .inf t => .inf t
  | .finite m e, .finite m' e' => flq ((m : ℚ) * q2z e + (m' : ℚ) * q2z e')

/-- IEEE-754 binary64 division on the model. -/
def fdiv : F64 → F64 → F64
  | .nan, _ => .nan
  | _, .nan => .nan
  | .inf _, .inf _ => .nan
  | .inf s, .finite m _ => .inf (xor s (decide (m < 0)))
  | .finite _ _, .inf _ => .finite 0 0
  | .finite m e, .finite m' e' =>
      if m' = 0 then (if m = 0 then .nan else .inf (decide (m < 0)))
      else flq (((m : ℚ) * q2z e) / ((m' : ℚ) * q2z e'))

/-- Rust's `f64::round`: round to the nearest integer, ties away from zero. -/
def fround : F64 → F64
  | .nan => .nan
  | .inf s => .inf s
  | .finite m e => flq ((rhaz ((m : ℚ) * q2z e) : ℤ) : ℚ)

end F64

open F64

/-! ## The library under verification (`formulas.rs`, `tire.rs`)

Every decimal literal of the Rust source is modelled as the binary64
value nearest that decimal, which is what the Rust compiler produces. -/

/-- `formulas::to_cm`: inches to centimeters, `inches * 2.54`. -/
def to_cm (inches : F64) : F64 := fmul inches (flq (254/100))

/-- `formulas::to_in`: centimeters to inches, `centimeters / 2.54`. -/
def to_in (centimeters : F64) : F64 := fdiv centimeters (flq (254/100))

/-- `formulas::to_kph`: `mph * 1.609344`. -/
def to_kph (mph : F64) : F64 := fmul mph (flq (1609344/1000000))

/-- `formulas::to_mph`: `kph * 0.6214`. -/
def to_mph (kph : F64) : F64 := fmul kph (flq (6214/10000))

/-- `formulas::mph_from_oss`: `oss / axle_ratio / tire_revs_per_mile * 60.0`. -/
def mph_from_oss (oss tire_revs_per_mile axle_ratio : F64) : F64 :=
  fmul (fdiv (fdiv oss axle_ratio) tire_revs_per_mile) (flq 60)

/-- `formulas::oss_from_mph`: `((tire_revs_per_mile * mph) / 60.0) * axle_ratio`. -/
def oss_from_mph (mph tire_revs_per_mile axle_ratio : F64) : F64 :=
  fmul (fdiv (fmul tire_revs_per_mile mph) (flq 60)) axle_ratio

/-- `formulas::engine_rpm_from_oss`: `oss * trans_gear_ratio`. -/
def engine_rpm_from_oss (oss trans_gear_ratio : F64) : F64 := fmul oss trans_gear_ratio

/-- `formulas::oss_from_engine_rpm`: `rpm / trans_gear_ratio`. -/
def oss_from_engine_rpm (rpm trans_gear_ratio : F64) : F64 := fdiv rpm trans_gear_ratio

/-- `formulas::hp_to_torque`: `(hp * 5252.0) / rpm`. -/
def hp_to_torque (hp rpm : F64) : F64 := fdiv (fmul hp (flq 5252)) rpm

/-- `formulas::torque_to_hp`: `(torque * rpm) / 5252.0`. -/
def torque_to_hp (torque rpm : F64) : F64 := fdiv (fmul torque rpm) (flq 5252)

/-- The `round(number, 3)` helper of the source's test module specialized to
3 decimals: `(number * 1000.0).round() / 1000.0` (`10f64.powi(3)` is exactly
`1000.0`). -/
def rustRound3 (number : F64) : F64 := fdiv (fround (fmul number (flq 1000))) (flq 1000)

/-! ## Tire-size parsing (`tire.rs`)

`Tire::new` runs the regex `\d{2,}` over the code: it collects the maximal
runs of consecutive ASCII digits of length at least two, parses each to
`f64` (exact integer value, rounded to binary64), and panics — via
`assert!` when no run exists, via `Option::unwrap` when fewer than three
runs exist.  Panics are modelled as `Except.error`; the error type also
carries a `parseError` constructor, which the source never produces,
solely so that statements about the failure mode can be expressed. -/

/-- Splits a character list into its maximal runs of consecutive ASCII
digits (`acc` holds the current run, reversed). -/
def collectRuns : List Char → List Char → List (List Char)
  | [], acc => if acc.isEmpty then [] else [acc.reverse]
  | c :: rest, acc =>
      if c.isDigit then collectRuns rest (c :: acc)
      else (if acc.isEmpty then [] else [acc.reverse]) ++ collectRuns rest []

/-- The numeric value of a list of ASCII digit characters. -/
def digitsToNat (l : List Char) : ℕ := l.foldl (fun n c => 10 * n + (c.toNat - 48)) 0

/-- The values of the maximal digit runs of length at least two in a string,
left to right — the matches of the regex `\d{2,}` in `Tire::new`. -/
def digitRuns (s : String) : List ℕ :=
  ((collectRuns s.data []).filter (fun r => 2 ≤ r.length)).map digitsToNat

/-- How `Tire::new` can fail.  The source panics (`assertFailed` for the
`assert!`, `unwrapFailed` for `Option::unwrap` on a missing group); it has
no code path producing `parseError`. -/
inductive TireFailure : Type
  | parseError
  | assertFailed
  | unwrapFailed
  deriving DecidableEq, Repr

/-- `tire::Tire`: holds the diameter of the tire in inches. -/
structure Tire : Type where
  diameter : F64
  deriving DecidableEq, Repr

/-- The diameter computed by `Tire::new` from the first three digit runs:
`to_in(((width * (aspect_ratio / 100.0)) * 2.0) / 10.0) + wheel_diameter`. -/
def tireDiameter (width aspect_ratio wheel_diameter : ℕ) : F64 :=
  fadd
    (to_in (fdiv (fmul (fmul (flq width) (fdiv (flq aspect_ratio) (flq 100))) (flq 2)) (flq 10)))
    (flq wheel_diameter)

/-- `Tire::new`: panics through `assert!` when the string holds no run of
two-or-more digits, panics through `unwrap` when it holds fewer than three
such runs, and otherwise builds the tire from the first three runs. -/
def Tire.new (value : String) : Except TireFailure Tire :=
  match digitRuns value with
  | [] => .error .assertFailed
  | [_] => .error .unwrapFailed
  | [_, _] => .error .unwrapFailed
  | w :: a :: d :: _ => .ok ⟨tireDiameter w a d⟩

/-- `Tire::circumference`: `self.diameter * 3.14`. -/
def Tire.circumference (t : Tire) : F64 := fmul t.diameter (flq (314/100))

/-- `Tire::miles_per_rev`: `self.circumference() / (5280.0 * 12.0)`. -/
def Tire.miles_per_rev (t : Tire) : F64 :=
  fdiv t.circumference (fmul (flq 5280) (flq 12))

/-- `Tire::revs_per_mile`: `1.0 / self.miles_per_rev()`. -/
def Tire.revs_per_mile (t : Tire) : F64 := fdiv (flq 1) t.miles_per_rev

/-- A float is "not negative": a non-negative finite value, positive
infinity, or NaN (NaN carries no sign here). -/
def nonNeg : F64 → Prop
  | .finite m _ => 0 ≤ m
  | .inf s => s = false
  | .nan => True

/-- "`x` is within floating-point epsilon of `y`", read as: `x` is finite
and differs from `y` by at most `2^-52` (the binary64 machine epsilon) in
relative terms. -/
def closeEps52 (x y : F64) : Bool :=
  x.isFinite && decide (|x.toQ - y.toQ| ≤ q2z (-52) * |y.toQ|)

/-! ## Helper lemmas -/

theorem q2z_eq (k : ℤ) : q2z k = (2:ℚ) ^ k := by
  unfold q2z
  split_ifs with h
  · rw [Rat.mkRat_one]
    push_cast
    rw [← zpow_natCast (2:ℚ) k.toNat, Int.toNat_of_nonneg h]
  · have hk : k = -((-k).toNat : ℤ) := by omega
    rw [Rat.mkRat_eq_divInt, Rat.divInt_eq_div]
    push_cast
    rw [one_div, ← zpow_natCast (2:ℚ) (-k).toNat, ← zpow_neg, ← hk]

theorem q2z_pos (k : ℤ) : 0 < q2z k := by
  rw [q2z_eq]
  exact zpow_pos (by norm_num) _

theorem q2z_ne_zero (k : ℤ) : q2z k ≠ 0 := ne_of_gt (q2z_pos k)

theorem q2z_zero : q2z 0 = 1 := by rw [q2z_eq]; rfl

theorem q2z_add (a b : ℤ) : q2z (a + b) = q2z a * q2z b := by
  rw [q2z_eq, q2z_eq, q2z_eq]
  exact zpow_add₀ (by norm_num) a b

theorem q2z_mono {a b : ℤ} (h : a ≤ b) : q2z a ≤ q2z b := by
  rw [q2z_eq, q2z_eq]
  exact (zpow_le_zpow_iff_right₀ (by norm_num)).mpr h

theorem q2z_strict {a b : ℤ} (h : a < b) : q2z a < q2z b := by
  rw [q2z_eq, q2z_eq]
  exact (zpow_lt_zpow_iff_right₀ (by norm_num)).mpr h

theorem q2z_natCast (n : ℕ) : q2z (n : ℤ) = ((2 ^ n : ℕ) : ℚ) := by
  rw [q2z_eq, zpow_natCast]
  push_cast
  ring

theorem q2z_inv (a : ℤ) : q2z (-a) = (q2z a)⁻¹ := by
  rw [q2z_eq, q2z_eq]
  exact zpow_neg 2 a

theorem nlog2F_spec : ∀ f n, 1 ≤ n → n ≤ f →
    2 ^ nlog2F f n ≤ n ∧ n < 2 ^ (nlog2F f n + 1) := by
  intro f
  induction f with
  | zero => intro n h1 h2; omega
  | succ f ih =>
    intro n h1 h2
    by_cases hn : n ≤ 1
    · have : n = 1 := by omega
      subst this
      simp [nlog2F]
    · have h2' : 2 ≤ n := by omega
      have hrec := ih (n / 2) (by omega) (by omega)
      have hstep : nlog2F (f + 1) n = nlog2F f (n / 2) + 1 := by
        simp [nlog2F, hn]
      rw [hstep]
      constructor
      · calc 2 ^ (nlog2F f (n / 2) + 1) = 2 * 2 ^ nlog2F f (n / 2) := by ring
        _ ≤ 2 * (n / 2) := by omega
        _ ≤ n := by omega
      · have := hrec.2
        calc n ≤ 2 * (n / 2) + 1 := by omega
        _ < 2 * 2 ^ (nlog2F f (n / 2) + 1) := by omega
        _ = 2 ^ (nlog2F f (n / 2) + 1 + 1) := by ring

theorem nlog2_spec (n : ℕ) (h : 1 ≤ n) :
    2 ^ nlog2 n ≤ n ∧ n < 2 ^ (nlog2 n + 1) :=
  nlog2F_spec n n h le_rfl

theorem rlog2_spec (q : ℚ) (hq : 0 < q) :
    q2z (rlog2 q) ≤ q ∧ q < q2z (rlog2 q + 1) := by
  have hnum : 0 < q.num := Rat.num_pos.mpr hq
  set n : ℕ := q.num.toNat with hn
  set d : ℕ := q.den with hd
  have hn1 : 1 ≤ n := by omega
  have hd1 : 1 ≤ d := q.den_pos
  have hq_eq : q = (n : ℚ) / (d : ℚ) := by
    rw [hn, hd]
    have h1 : ((q.num.toNat : ℕ) : ℚ) = ((q.num : ℤ) : ℚ) := by
      rw [← Int.cast_natCast]
      congr 1
      exact Int.toNat_of_nonneg (le_of_lt hnum)
    rw [h1]
    exact (Rat.num_div_den q).symm
  obtain ⟨hA1, hA2⟩ := nlog2_spec n hn1
  obtain ⟨hB1, hB2⟩ := nlog2_spec d hd1
  set a : ℕ := nlog2 n
  set b : ℕ := nlog2 d
  have hdpos : (0:ℚ) < (d:ℚ) := by exact_mod_cast hd1
  -- rational versions of the nat bounds
  have hA1' : ((2:ℚ)) ^ (a:ℤ) ≤ (n:ℚ) := by
    rw [zpow_natCast]
    exact_mod_cast hA1
  have hA2' : (n:ℚ) < (2:ℚ) ^ ((a:ℤ) + 1) := by
    have : ((a:ℤ) + 1) = ((a + 1 : ℕ) : ℤ) := by push_cast; ring
    rw [this, zpow_natCast]
    exact_mod_cast hA2
  have hB1' : ((2:ℚ)) ^ (b:ℤ) ≤ (d:ℚ) := by
    rw [zpow_natCast]
    exact_mod_cast hB1
  have hB2' : (d:ℚ) < (2:ℚ) ^ ((b:ℤ) + 1) := by
    have : ((b:ℤ) + 1) = ((b + 1 : ℕ) : ℤ) := by push_cast; ring
    rw [this, zpow_natCast]
    exact_mod_cast hB2
  have hzpos : ∀ z : ℤ, (0:ℚ) < (2:ℚ) ^ z := fun z => zpow_pos (by norm_num) z
  -- upper bound: q < 2 ^ (a - b + 1)
  have hupper : q < (2:ℚ) ^ ((a:ℤ) - (b:ℤ) + 1) := by
    rw [hq_eq, div_lt_iff₀ hdpos]
    calc (n:ℚ) < (2:ℚ) ^ ((a:ℤ) + 1) := hA2'
    _ = (2:ℚ) ^ ((a:ℤ) - (b:ℤ) + 1) * (2:ℚ) ^ (b:ℤ) := by
        rw [← zpow_add₀ (by norm_num : (2:ℚ) ≠ 0)]
        ring_nf
    _ ≤ (2:ℚ) ^ ((a:ℤ) - (b:ℤ) + 1) * (d:ℚ) := by
        exact mul_le_mul_of_nonneg_left hB1' (le_of_lt (hzpos _))
  -- lower bound: 2 ^ (a - b - 1) < q
  have hlower : (2:ℚ) ^ ((a:ℤ) - (b:ℤ) - 1) < q := by
    rw [hq_eq, lt_div_iff₀ hdpos]
    calc (2:ℚ) ^ ((a:ℤ) - (b:ℤ) - 1) * (d:ℚ)
        < (2:ℚ) ^ ((a:ℤ) - (b:ℤ) - 1) * (2:ℚ) ^ ((b:ℤ) + 1) := by
          exact mul_lt_mul_of_pos_left hB2' (hzpos _)
    _ = (2:ℚ) ^ (a:ℤ) := by
        rw [← zpow_add₀ (by norm_num : (2:ℚ) ≠ 0)]
        ring_nf
    _ ≤ (n:ℚ) := hA1'
  -- unfold rlog2
  have hk0 : rlog2 q = if q < q2z ((a:ℤ) - (b:ℤ)) then (a:ℤ) - (b:ℤ) - 1 else (a:ℤ) - (b:ℤ) := by
    simp only [rlog2, ← hn, ← hd]
  rw [hk0]
  split_ifs with hcase
  · constructor
    · rw [q2z_eq]
      exact le_of_lt hlower
    · have : (a:ℤ) - (b:ℤ) - 1 + 1 = (a:ℤ) - (b:ℤ) := by ring
      rw [this]
      exact hcase
  · constructor
    · rw [q2z_eq] at hcase
      rw [q2z_eq]
      exact not_lt.mp hcase
    · rw [q2z_eq]
      exact hupper

theorem flq_zero : flq 0 = .finite 0 0 := by decide

theorem fdiv_zeroden (x : F64) : isInfOrNan (fdiv x (.finite 0 0)) = true := by
  cases x with
  | nan => rfl
  | inf s => rfl
  | finite m e => simp only [fdiv, if_pos]; split_ifs <;> rfl

theorem isInfOrNan_fdiv_left (x y : F64) (hx : isInfOrNan x = true) :
    isInfOrNan (fdiv x y) = true := by
  cases x <;> cases y <;> simp_all [fdiv, isInfOrNan]

theorem isInfOrNan_fmul_nonzero (x : F64) (m e : ℤ) (hm : m ≠ 0)
    (hx : isInfOrNan x = true) : isInfOrNan (fmul x (.finite m e)) = true := by
  cases x <;> simp_all [fmul, isInfOrNan]

theorem rne_nonneg (q : ℚ) (h : 0 ≤ q) : 0 ≤ rne q := by
  have hf : 0 ≤ ⌊q⌋ := Int.floor_nonneg.mpr h
  unfold rne; split_ifs <;> omega

theorem flq_nonneg (q : ℚ) (h : 0 ≤ q) : nonNeg (flq q) := by
  unfold flq
  split_ifs with h1 h2
  · show (0:ℤ) ≤ 0
    exact le_rfl
  · show nonNeg (F64.inf (decide (q < 0)))
    show (decide (q < 0)) = false
    simp [decide_eq_false_iff_not, not_lt, h]
  · show 0 ≤ expM q
    have hpre : 0 ≤ preM q := by
      apply rne_nonneg
      exact div_nonneg h (le_of_lt (q2z_pos _))
    unfold expM; split_ifs
    · exact Int.ediv_nonneg hpre (by norm_num)
    · exact hpre

theorem fmul_nonNeg {x y : F64} (hx : nonNeg x) (hy : nonNeg y) : nonNeg (fmul x y) := by
  cases x with
  | nan => cases y <;> simp [fmul, nonNeg]
  | inf s =>
    cases y with
    | nan => simp [fmul, nonNeg]
    | inf t => simp_all [fmul, nonNeg]
    | finite m e =>
      have hm : (0:ℤ) ≤ m := hy
      have hs : s = false := hx
      simp only [fmul]; split_ifs with h0
      · simp [nonNeg]
      · have : ¬ m < 0 := not_lt.mpr hm
        simp_all [nonNeg]
  | finite m e =>
    cases y with
    | nan => simp [fmul, nonNeg]
    | inf t =>
      have hm : (0:ℤ) ≤ m := hx
      have ht : t = false := hy
      simp only [fmul]; split_ifs with h0
      · simp [nonNeg]
      · have : ¬ m < 0 := not_lt.mpr hm
        simp_all [nonNeg]
    | finite m' e' =>
      show nonNeg (flq _)
      apply flq_nonneg
      have hm : (0:ℤ) ≤ m := hx
      have hm' : (0:ℤ) ≤ m' := hy
      have h1 : (0:ℚ) ≤ (m:ℚ) * q2z e :=
        mul_nonneg (by exact_mod_cast hm) (le_of_lt (q2z_pos _))
      have h2 : (0:ℚ) ≤ (m':ℚ) * q2z e' :=
        mul_nonneg (by exact_mod_cast hm') (le_of_lt (q2z_pos _))
      exact mul_nonneg h1 h2

theorem fadd_nonNeg {x y : F64} (hx : nonNeg x) (hy : nonNeg y) : nonNeg (fadd x y) := by
  cases x with
  | nan => cases y <;> simp [fadd, nonNeg]
  | inf s =>
    cases y with
    | nan => simp [fadd, nonNeg]
    | inf t =>
      have hs : s = false := hx
      have ht : t = false := hy
      subst hs; subst ht
      simp [fadd, nonNeg]
    | finite m e =>
      have hs : s = false := hx
      simp [fadd, nonNeg, hs]
  | finite m e =>
    cases y with
    | nan => simp [fadd, nonNeg]
    | inf t =>
      have ht : t = false := hy
      simp [fadd, nonNeg, ht]
    | finite m' e' =>
      show nonNeg (flq _)
      apply flq_nonneg
      have hm : (0:ℤ) ≤ m := hx
      have hm' : (0:ℤ) ≤ m' := hy
      have h1 : (0:ℚ) ≤ (m:ℚ) * q2z e :=
        mul_nonneg (by exact_mod_cast hm) (le_of_lt (q2z_pos _))
      have h2 : (0:ℚ) ≤ (m':ℚ) * q2z e' :=
        mul_nonneg (by exact_mod_cast hm') (le_of_lt (q2z_pos _))
      exact add_nonneg h1 h2

theorem fdiv_nonNeg {x y : F64} (hx : nonNeg x) (hy : nonNeg y) : nonNeg (fdiv x y) := by
  cases x with
  | nan => cases y <;> simp [fdiv, nonNeg]
  | inf s =>
    cases y with
    | nan => simp [fdiv, nonNeg]
    | inf t => simp [fdiv, nonNeg]
    | finite m e =>
      have hm : (0:ℤ) ≤ m := hy
      have hs : s = false := hx
      have : ¬ m < 0 := not_lt.mpr hm
      simp_all [fdiv, nonNeg]
  | finite m e =>
    cases y with
    | nan => simp [fdiv, nonNeg]
    | inf t => simp [fdiv, nonNeg]
    | finite m' e' =>
      have hm : (0:ℤ) ≤ m := hx
      simp only [fdiv]; split_ifs with h0 h1
      · simp [nonNeg]
      · have : ¬ m < 0 := not_lt.mpr hm
        simp_all [nonNeg]
      · apply flq_nonneg
        have hm' : (0:ℤ) ≤ m' := hy
        have h1 : (0:ℚ) ≤ (m:ℚ) * q2z e :=
          mul_nonneg (by exact_mod_cast hm) (le_of_lt (q2z_pos _))
        have h2 : (0:ℚ) ≤ (m':ℚ) * q2z e' :=
          mul_nonneg (by exact_mod_cast hm') (le_of_lt (q2z_pos _))
        exact div_nonneg h1 h2

theorem flq_nat_nonneg (n : ℕ) : nonNeg (flq (n : ℚ)) :=
  flq_nonneg _ (by positivity)

theorem tireDiameter_nonneg (w a d : ℕ) : nonNeg (tireDiameter w a d) := by
  unfold tireDiameter to_in
  apply fadd_nonNeg
  · apply fdiv_nonNeg
    · apply fdiv_nonNeg
      · apply fmul_nonNeg
        · apply fmul_nonNeg
          · exact flq_nat_nonneg w
          · apply fdiv_nonNeg
            · exact flq_nat_nonneg a
            · exact flq_nonneg _ (by norm_num)
        · exact flq_nonneg _ (by norm_num)
      · exact flq_nonneg _ (by norm_num)
    · exact flq_nonneg _ (by norm_num)
  · exact flq_nat_nonneg d

/-! ## Claims -/

/-- C1 (counterexample): on the malformed code "ABC" the constructor does
not fail with a `ParseError` value; it fails through the `assert!` panic
(the source has no `ParseError`-producing path at all). -/
theorem c1_counterexample :
    Tire.new ("ABC") ≠ .error TireFailure.parseError ∧
    Tire.new ("ABC") = .error TireFailure.assertFailed := by decide

/-- C1 (amended): for every input string with fewer than three maximal runs
of two-or-more consecutive digits, `Tire::new` fails — but by panicking
(`assert!` when no run exists, `Option::unwrap` otherwise), never by
returning a `ParseError` value. -/
theorem c1_new_panics_without_three_runs (s : String)
    (h : (digitRuns s).length < 3) :
    Tire.new s = .error TireFailure.assertFailed ∨
      Tire.new s = .error TireFailure.unwrapFailed := by
  rcases hr : digitRuns s with _ | ⟨w, _ | ⟨a, _ | ⟨d, rest⟩⟩⟩
  · left
    simp [Tire.new, hr]
  · right
    simp [Tire.new, hr]
  · right
    simp [Tire.new, hr]
  · rw [hr] at h
    simp at h
    omega

/-- C1 (witness): the theorem applied to the concrete malformed code "ABC". -/
theorem c1_witness :
    Tire.new ("ABC") = .error TireFailure.assertFailed ∨
      Tire.new ("ABC") = .error TireFailure.unwrapFailed :=
  c1_new_panics_without_three_runs ("ABC") (by decide)

/-- C2: whenever the first three maximal digit runs of length at least two
are `w`, `a`, `d`, the constructed diameter is
`to_in(((w * (a / 100)) * 2) / 10) + d` in binary64 arithmetic in that
operation order, and concretely
`Tire::new("275/55R20").diameter == 31.909448818897637` exactly. -/
theorem c2_diameter_formula :
    (∀ s w a d rest, digitRuns s = w :: a :: d :: rest →
        Tire.new s = .ok ⟨tireDiameter w a d⟩) ∧
    (Tire.new ("275/55R20")).map
        (fun t => feq t.diameter (flq (31909448818897637/10^15))) = .ok true := by
  constructor
  · intro s w a d rest h
    simp [Tire.new, h]
  · decide

/-- C2 (witness): the formula instantiated on "275/55R20". -/
theorem c2_witness : Tire.new ("275/55R20") = .ok ⟨tireDiameter 275 55 20⟩ :=
  c2_diameter_formula.1 ("275/55R20") 275 55 20 [] (by decide)

/-- C3: for every tire, `circumference = diameter * 3.14`,
`miles_per_rev = circumference / (5280 * 12)` and
`revs_per_mile = 1 / miles_per_rev`, each as the identical binary64
computation; concretely `Tire::new("275/55R20").revs_per_mile() ==
632.362660463581` exactly. -/
theorem c3_derived_metrics :
    (∀ t : Tire,
      t.circumference = fmul t.diameter (flq (314/100)) ∧
      t.miles_per_rev = fdiv t.circumference (fmul (flq 5280) (flq 12)) ∧
      t.revs_per_mile = fdiv (flq 1) t.miles_per_rev) ∧
    (Tire.new ("275/55R20")).map
        (fun t => feq t.revs_per_mile (flq (632362660463581/10^12))) = .ok true := by
  refine ⟨fun t => ⟨rfl, rfl, rfl⟩, by decide⟩

/-- C6: the drivetrain formulas are total functions in the model by
construction; whenever one of the divisor arguments (`axle_ratio` or
`tire_revs_per_mile` in `mph_from_oss`, `trans_gear_ratio` in
`oss_from_engine_rpm`, `rpm` in `hp_to_torque`) is zero, the result is an
IEEE-754 infinity or NaN, returned as an ordinary value. -/
theorem c6_zero_divisor_yields_inf_or_nan :
    (∀ oss r, isInfOrNan (mph_from_oss oss r (flq 0)) = true) ∧
    (∀ oss a, isInfOrNan (mph_from_oss oss (flq 0) a) = true) ∧
    (∀ rpm, isInfOrNan (oss_from_engine_rpm rpm (flq 0)) = true) ∧
    (∀ hp, isInfOrNan (hp_to_torque hp (flq 0)) = true) := by
  have h60 : flq (60:ℚ) = .finite 8444249301319680 (-47) := by decide
  refine ⟨?_, ?_, ?_, ?_⟩
  · intro oss r
    unfold mph_from_oss
    rw [flq_zero, h60]
    exact isInfOrNan_fmul_nonzero _ _ _ (by norm_num)
      (isInfOrNan_fdiv_left _ _ (fdiv_zeroden _))
  · intro oss a
    unfold mph_from_oss
    rw [flq_zero, h60]
    exact isInfOrNan_fmul_nonzero _ _ _ (by norm_num) (fdiv_zeroden _)
  · intro rpm
    unfold oss_from_engine_rpm
    rw [flq_zero]
    exact fdiv_zeroden _
  · intro hp
    unfold hp_to_torque
    rw [flq_zero]
    exact fdiv_zeroden _

/-- C7: `mph_from_oss` computes `oss / a / r * 60` and `oss_from_mph`
computes `((r * mph) / 60) * a`, in those operation orders; concretely
`mph_from_oss(1000, 600, 3.21) == 31.15264797507788` and
`oss_from_mph(100, 600, 3.21) == 3210.0` exactly. -/
theorem c7_oss_conversion_values :
    (∀ oss r a, mph_from_oss oss r a = fmul (fdiv (fdiv oss a) r) (flq 60)) ∧
    (∀ mph r a, oss_from_mph mph r a = fmul (fdiv (fmul r mph) (flq 60)) a) ∧
    feq (mph_from_oss (flq 1000) (flq 600) (flq (321/100)))
      (flq (3115264797507788/10^14)) = true ∧
    feq (oss_from_mph (flq 100) (flq 600) (flq (321/100))) (flq 3210) = true := by
  exact ⟨fun _ _ _ => rfl, fun _ _ _ => rfl, by decide, by decide⟩

/-- C8 (counterexample): `to_mph(100.0) == 62.14` is false in binary64:
`100.0 * 0.6214` rounds to `62.13999999999999`, one ulp below `62.14`. -/
theorem c8_counterexample : feq (to_mph (flq 100)) (flq (6214/100)) = false := by decide

/-- C8 (amended): `to_kph` multiplies by the double nearest 1.609344 and
`to_mph` by the double nearest 0.6214; `to_kph(100.0) == 160.9344` exactly,
but `to_mph(100.0)` is `8745427526400081 * 2^-47 = 62.13999999999999…`,
one ulp below `62.14`; the two conversions are not inverses:
`to_mph(to_kph(100.0)) != 100.0`. -/
theorem c8_speed_conversion_constants :
    (∀ x, to_kph x = fmul x (flq (1609344/1000000))) ∧
    (∀ x, to_mph x = fmul x (flq (6214/10000))) ∧
    feq (to_kph (flq 100)) (flq (1609344/10000)) = true ∧
    to_mph (flq 100) = .finite 8745427526400081 (-47) ∧
    feq (to_mph (to_kph (flq 100))) (flq 100) = false := by
  exact ⟨fun _ => rfl, fun _ => rfl, by decide, by decide, by decide⟩

/-- C9 (counterexample): the code "00/00R00" is accepted by the
constructor and produces a tire whose diameter is not greater than zero
(it is exactly zero), refuting `diameter > 0`. -/
theorem c9_counterexample :
    (Tire.new ("00/00R00")).map (fun t => fltB (flq 0) t.diameter) = .ok false := by
  decide

/-- C9 (amended): every tire the constructor accepts has a diameter that
is never negative (non-negative finite, positive infinity, or NaN for
degenerate inputs; zero is possible, so `> 0` fails but `not negative`
holds).  Immutability holds by construction: no operation of the model
writes the field. -/
theorem c9_diameter_never_negative (s : String) (t : Tire)
    (h : Tire.new s = .ok t) : nonNeg t.diameter := by
  rcases hr : digitRuns s with _ | ⟨w, _ | ⟨a, _ | ⟨d, rest⟩⟩⟩ <;>
    simp [Tire.new, hr] at h
  rw [← h]
  exact tireDiameter_nonneg w a d

/-- C9 (witness): the theorem applied to the concrete accepted code
"275/55R20". -/
theorem c9_witness : nonNeg (Tire.mk (F64.finite 8981711363149082 (-48))).diameter :=
  c9_diameter_never_negative ("275/55R20") _ (by decide)

/-- C10: the derived-metric accessors are total functions of the model by
construction, and the zero-diameter tire — constructible from the accepted
code "00/00R00" — yields `circumference() = 0.0`,
`miles_per_rev() = 0.0` and `revs_per_mile() = +infinity`. -/
theorem c10_zero_diameter_total :
    Tire.new ("00/00R00") = .ok ⟨.finite 0 0⟩ ∧
    (F64.finite 0 0).toQ = 0 ∧
    Tire.circumference ⟨.finite 0 0⟩ = .finite 0 0 ∧
    Tire.miles_per_rev ⟨.finite 0 0⟩ = .finite 0 0 ∧
    Tire.revs_per_mile ⟨.finite 0 0⟩ = .inf false := by decide

/-- C4 (counterexample): the round-trip
`mph_from_oss(oss_from_mph(mph, r, a), r, a)` is not within machine
epsilon (relative `2^-52`) of `mph` for all nonzero `r`, `a`.  Two
refutations: with `mph = r = 10^160`, `a = 1` the intermediate product
overflows to infinity; and with ordinary in-range doubles
`mph = 5331831847302821 * 2^-13`, `r = 7917252423553115 * 2^-12`,
`a = 8456695795019631 * 2^-52` the relative error is about `2.53 * 2^-52`,
already beyond one machine epsilon. -/
theorem c4_counterexample :
    ((flq (10000000000000000000000000000000000000000000000000000000000000000000000000000000000000000000000000000000000000000000000000000000000000000000000000000000000000000)).isFinite = true ∧
      feq (flq (10000000000000000000000000000000000000000000000000000000000000000000000000000000000000000000000000000000000000000000000000000000000000000000000000000000000000000)) (flq 0) = false ∧
      feq (flq 1) (flq 0) = false ∧
      closeEps52
        (mph_from_oss
          (oss_from_mph (flq (10000000000000000000000000000000000000000000000000000000000000000000000000000000000000000000000000000000000000000000000000000000000000000000000000000000000000000)) (flq (10000000000000000000000000000000000000000000000000000000000000000000000000000000000000000000000000000000000000000000000000000000000000000000000000000000000000000)) (flq 1))
          (flq (10000000000000000000000000000000000000000000000000000000000000000000000000000000000000000000000000000000000000000000000000000000000000000000000000000000000000000)) (flq 1))
        (flq (10000000000000000000000000000000000000000000000000000000000000000000000000000000000000000000000000000000000000000000000000000000000000000000000000000000000000000)) = false) ∧
    (feq (flq (7917252423553115/4398046511104)) (flq 0) = false ∧
      feq (flq (8456695795019631/4503599627370496)) (flq 0) = false ∧
      closeEps52
        (mph_from_oss
          (oss_from_mph (flq (5331831847302821/8796093022208))
            (flq (7917252423553115/4398046511104))
            (flq (8456695795019631/4503599627370496)))
          (flq (7917252423553115/4398046511104))
          (flq (8456695795019631/4503599627370496)))
        (flq (5331831847302821/8796093022208)) = false) := by decide

theorem rne_close (q : ℚ) : |(rne q : ℚ) - q| ≤ 1/2 := by
  have h0 : (⌊q⌋:ℚ) ≤ q := Int.floor_le q
  have h1 : q < (⌊q⌋:ℚ) + 1 := Int.lt_floor_add_one q
  unfold rne
  split_ifs with ha hb hc <;> rw [abs_le] <;> push_cast <;> constructor <;> linarith

theorem rne_intCast (z : ℤ) : rne ((z:ℚ)) = z := by
  unfold rne
  rw [Int.floor_intCast]
  norm_num

theorem rhaz_eq_of_close (n : ℤ) (q : ℚ) (hn : 0 ≤ n) (h : |q - (n:ℚ)| < 1/2) :
    rhaz q = n := by
  rw [abs_lt] at h
  have hn' : (0:ℚ) ≤ (n:ℚ) := by exact_mod_cast hn
  unfold rhaz
  split_ifs with hq
  · rw [Int.floor_eq_iff]
    constructor <;> linarith
  · push_neg at hq
    have hn0 : n = 0 := by
      by_contra hne
      have : (1:ℚ) ≤ (n:ℚ) := by exact_mod_cast (by omega : 1 ≤ n)
      linarith
    subst hn0
    have : ⌊-q + 1/2⌋ = 0 := by
      rw [Int.floor_eq_iff]
      push_cast
      constructor <;> linarith
    rw [this]
    rfl

theorem q2z_neg_one : q2z (-1) = 1/2 := by decide
theorem q2z_one : q2z 1 = 2 := by decide
theorem q2z_53 : q2z 53 = 9007199254740992 := by decide
theorem q2z_neg53_lt_one : q2z (-53) < 1 := by decide

theorem flq_close (q : ℚ) (hlo : q2z (-900) ≤ |q|) (hhi : |q| < q2z 1023) :
    flq q = .finite (expM q) (expE q) ∧ expM q ≠ 0 ∧
      |(expM q : ℚ) * q2z (expE q) - q| ≤ q2z (-53) * |q| := by
  have hq0 : q ≠ 0 := by
    intro h
    rw [h, abs_zero] at hlo
    exact absurd hlo (not_le.mpr (q2z_pos _))
  have habs : 0 < |q| := abs_pos.mpr hq0
  obtain ⟨hk1, hk2⟩ := rlog2_spec |q| habs
  set k := rlog2 |q| with hkdef
  have hkle : k ≤ 1022 := by
    by_contra h
    push_neg at h
    have := q2z_mono (show (1023:ℤ) ≤ k by omega)
    linarith
  have hkge : -900 ≤ k := by
    by_contra h
    push_neg at h
    have := q2z_mono (show k + 1 ≤ -900 by omega)
    linarith
  have hE : preE q = k - 52 := by
    unfold preE
    rw [← hkdef]
    exact max_eq_left (by omega)
  set x := q / q2z (preE q) with hx
  have hpm : preM q = rne x := by rw [hx]; rfl
  have hclose := rne_close x
  have hxbound : |x| < q2z 53 := by
    rw [hx, abs_div, abs_of_pos (q2z_pos _), div_lt_iff₀ (q2z_pos _)]
    calc |q| < q2z (k+1) := hk2
    _ = q2z 53 * q2z (preE q) := by
        rw [hE, ← q2z_add]
        ring_nf
  have herr0 : |(preM q : ℚ) * q2z (preE q) - q| ≤ q2z (-53) * |q| := by
    have h1 : (preM q : ℚ) * q2z (preE q) - q = ((rne x : ℚ) - x) * q2z (preE q) := by
      rw [hpm, hx, sub_mul, div_mul_cancel₀ _ (q2z_ne_zero _)]
    rw [h1, abs_mul, abs_of_pos (q2z_pos _)]
    calc |(rne x:ℚ) - x| * q2z (preE q) ≤ (1/2) * q2z (preE q) :=
        mul_le_mul_of_nonneg_right hclose (le_of_lt (q2z_pos _))
    _ = q2z (-1) * q2z (preE q) := by rw [q2z_neg_one]
    _ = q2z (-53) * q2z k := by
        rw [← q2z_add, ← q2z_add, hE]
        ring_nf
    _ ≤ q2z (-53) * |q| := mul_le_mul_of_nonneg_left hk1 (le_of_lt (q2z_pos _))
  have hmabs : (preM q).natAbs ≤ 2^53 := by
    by_contra h
    push_neg at h
    have h1 : (9007199254740993:ℤ) ≤ |preM q| := by
      rw [Int.abs_eq_natAbs]
      exact_mod_cast (by omega : 2^53 + 1 ≤ (preM q).natAbs)
    have h2 : ((9007199254740993:ℤ):ℚ) ≤ |(preM q : ℚ)| := by
      rw [← Int.cast_abs]
      exact_mod_cast h1
    have h3 : |(preM q : ℚ)| ≤ |x| + 1/2 := by
      have : (preM q : ℚ) = x + ((rne x : ℚ) - x) := by rw [hpm]; ring
      rw [this]
      calc |x + ((rne x : ℚ) - x)| ≤ |x| + |(rne x : ℚ) - x| := abs_add _ _
      _ ≤ |x| + 1/2 := by linarith
    rw [q2z_53] at hxbound
    push_cast at h2
    linarith
  have hval : (expM q : ℚ) * q2z (expE q) = (preM q : ℚ) * q2z (preE q) := by
    unfold expM expE
    split_ifs with hc
    · rcases Int.natAbs_eq_iff.mp hc with hpos | hneg
      · have hp : preM q = 9007199254740992 := by rw [hpos]; norm_num
        rw [hp]
        have h2 : (9007199254740992:ℤ)/2 = 4503599627370496 := by norm_num
        rw [h2, q2z_add, q2z_one]
        push_cast
        ring
      · have hp : preM q = -9007199254740992 := by rw [hneg]; norm_num
        rw [hp]
        have h2 : (-9007199254740992:ℤ)/2 = -4503599627370496 := by norm_num
        rw [h2, q2z_add, q2z_one]
        push_cast
        ring
    · rfl
  have herr : |(expM q : ℚ) * q2z (expE q) - q| ≤ q2z (-53) * |q| := by
    rw [hval]
    exact herr0
  have hm0 : expM q ≠ 0 := by
    intro h
    rw [h] at herr
    push_cast at herr
    rw [zero_mul, zero_sub, abs_neg] at herr
    nlinarith [q2z_neg53_lt_one, habs]
  have hEE : expE q ≤ 971 := by
    unfold expE
    split_ifs <;> omega
  refine ⟨?_, hm0, herr⟩
  unfold flq
  rw [if_neg hq0, if_neg (not_lt.mpr hEE)]

theorem flq_nat_exact (n : ℕ) (h1 : 1 ≤ n) (h2 : n < 2^53) :
    flq (n:ℚ) = .finite (expM (n:ℚ)) (expE (n:ℚ)) ∧ 0 < expM (n:ℚ) ∧
      (expM (n:ℚ) : ℚ) * q2z (expE (n:ℚ)) = (n:ℚ) := by
  have hqpos : (0:ℚ) < (n:ℚ) := by exact_mod_cast h1
  have hq0 : (n:ℚ) ≠ 0 := ne_of_gt hqpos
  have habs : |(n:ℚ)| = (n:ℚ) := abs_of_pos hqpos
  obtain ⟨hk1, hk2⟩ := rlog2_spec |(n:ℚ)| (abs_pos.mpr hq0)
  set k := rlog2 |(n:ℚ)| with hkdef
  rw [habs] at hk1 hk2
  have hone : (1:ℚ) ≤ (n:ℚ) := by exact_mod_cast h1
  have hkge : 0 ≤ k := by
    by_contra h
    push_neg at h
    have hm := q2z_mono (show k + 1 ≤ 0 by omega)
    rw [q2z_zero] at hm
    linarith
  have hcast53 : q2z 53 = ((2^53 : ℕ) : ℚ) := q2z_natCast 53
  have hn53 : (n:ℚ) < q2z 53 := by
    rw [hcast53]
    exact_mod_cast h2
  have hkle : k ≤ 52 := by
    by_contra h
    push_neg at h
    have hm := q2z_mono (show (53:ℤ) ≤ k by omega)
    linarith
  have hE : preE (n:ℚ) = k - 52 := by
    unfold preE
    rw [← hkdef]
    exact max_eq_left (by omega)
  have htn : ((52 - k).toNat : ℤ) = 52 - k := Int.toNat_of_nonneg (by omega)
  have hc : q2z (52 - k) = ((2 ^ (52 - k).toNat : ℕ) : ℚ) := by
    conv_lhs => rw [← htn]
    rw [q2z_natCast]
  have hxeq : (n:ℚ) / q2z (preE (n:ℚ)) = ((n * 2 ^ (52 - k).toNat : ℕ) : ℚ) := by
    rw [hE, div_eq_mul_inv, ← q2z_inv]
    have hneg : -(k - 52) = 52 - k := by ring
    rw [hneg, hc]
    push_cast
    ring
  set M : ℤ := ((n * 2 ^ (52 - k).toNat : ℕ) : ℤ) with hMdef
  have hM : preM (n:ℚ) = M := by
    unfold preM
    rw [hxeq]
    have : ((n * 2 ^ (52 - k).toNat : ℕ) : ℚ) = ((M : ℤ) : ℚ) := by
      rw [hMdef]
      push_cast
      ring
    rw [this, rne_intCast]
  have hMpos : 0 < M := by
    rw [hMdef]
    have : 0 < n * 2 ^ (52 - k).toNat := Nat.mul_pos (by omega) (Nat.pos_pow_of_pos _ (by norm_num))
    exact_mod_cast this
  have hMlt : M < 2^53 := by
    have hq2 : ((n * 2 ^ (52 - k).toNat : ℕ) : ℚ) < q2z 53 := by
      rw [Nat.cast_mul, ← hc]
      calc (n:ℚ) * q2z (52 - k) < q2z (k+1) * q2z (52 - k) :=
          mul_lt_mul_of_pos_right hk2 (q2z_pos _)
      _ = q2z 53 := by
          rw [← q2z_add]
          ring_nf
    rw [hcast53] at hq2
    have hnat : n * 2 ^ (52 - k).toNat < 2^53 := by exact_mod_cast hq2
    rw [hMdef]
    exact_mod_cast hnat
  have hnoC : (preM (n:ℚ)).natAbs ≠ 2^53 := by
    rw [hM]
    have : (M.natAbs : ℤ) = M := Int.natAbs_of_nonneg (le_of_lt hMpos)
    omega
  have hexpM : expM (n:ℚ) = M := by
    unfold expM
    rw [if_neg hnoC, hM]
  have hexpE : expE (n:ℚ) = k - 52 := by
    unfold expE
    rw [if_neg hnoC, hE]
  have hval : (expM (n:ℚ) : ℚ) * q2z (expE (n:ℚ)) = (n:ℚ) := by
    rw [hexpM, hexpE, hMdef]
    have hcast : (((n * 2 ^ (52 - k).toNat : ℕ) : ℤ) : ℚ) = (n:ℚ) * q2z (52 - k) := by
      rw [Int.cast_natCast, Nat.cast_mul, ← hc]
    rw [hcast, mul_assoc, ← q2z_add]
    have hz : (52 - k) + (k - 52) = 0 := by ring
    rw [hz, q2z_zero, mul_one]
  refine ⟨?_, ?_, hval⟩
  · unfold flq
    rw [if_neg hq0, if_neg (by rw [hexpE]; omega)]
  · rw [hexpM]; exact hMpos

theorem fmul_finite (m e m' e' : ℤ) :
    fmul (.finite m e) (.finite m' e') = flq (((m:ℚ) * q2z e) * ((m':ℚ) * q2z e')) := rfl

theorem fdiv_finite (m e m' e' : ℤ) (h : m' ≠ 0) :
    fdiv (.finite m e) (.finite m' e') = flq (((m:ℚ) * q2z e) / ((m':ℚ) * q2z e')) := by
  simp [fdiv, h]

theorem fround_finite (m e : ℤ) :
    fround (.finite m e) = flq ((rhaz ((m:ℚ) * q2z e) : ℤ) : ℚ) := rfl

theorem flqStep (V I c γ γ' : ℚ)
    (hI1 : q2z (-520) ≤ |I|) (hI2 : |I| ≤ q2z 520)
    (hc1 : q2z (-200) ≤ |c|) (hc2 : |c| ≤ q2z 200)
    (hγ0 : 0 ≤ γ) (hγ : γ ≤ 1/4)
    (hV : |V - I| ≤ γ * |I|)
    (hstep : γ + (1 + γ) * q2z (-53) ≤ γ') :
    flq (V * c) = .finite (expM (V*c)) (expE (V*c)) ∧ expM (V*c) ≠ 0 ∧
      |(expM (V*c) : ℚ) * q2z (expE (V*c)) - I * c| ≤ γ' * |I * c| := by
  have hIpos : 0 < |I| := lt_of_lt_of_le (q2z_pos _) hI1
  have hcpos : 0 < |c| := lt_of_lt_of_le (q2z_pos _) hc1
  have habsmul : |V * c| = |V| * |c| := abs_mul V c
  have hIc : |I * c| = |I| * |c| := abs_mul I c
  have hIcpos : 0 < |I * c| := by
    rw [hIc]
    exact mul_pos hIpos hcpos
  have hVub : |V| ≤ (1 + γ) * |I| := by
    have h1 : |V| ≤ |I| + |V - I| := by
      calc |V| = |I + (V - I)| := by ring_nf
      _ ≤ |I| + |V - I| := abs_add _ _
    linarith
  have hVlb : (3/4) * |I| ≤ |V| := by
    have h1 : |I| - |V| ≤ |V - I| := by
      rw [abs_sub_comm]
      exact abs_sub_abs_le_abs_sub I V
    have h2 : γ * |I| ≤ (1/4) * |I| := mul_le_mul_of_nonneg_right hγ (le_of_lt hIpos)
    linarith
  have hIclb : q2z (-720) ≤ |I| * |c| := by
    have h720 : q2z (-520) * q2z (-200) = q2z (-720) := by
      rw [← q2z_add]
      norm_num
    rw [← h720]
    exact mul_le_mul hI1 hc1 (le_of_lt (q2z_pos _)) (le_of_lt hIpos)
  have hIcub : |I| * |c| ≤ q2z 720 := by
    have h720 : q2z 520 * q2z 200 = q2z 720 := by
      rw [← q2z_add]
      norm_num
    rw [← h720]
    exact mul_le_mul hI2 hc2 (le_of_lt hcpos) (le_of_lt (q2z_pos _))
  have hq1 : q2z (-900) ≤ |V * c| := by
    rw [habsmul]
    have h721 : q2z (-721) = (1/2) * q2z (-720) := by
      rw [show ((-721):ℤ) = -1 + -720 by norm_num, q2z_add, q2z_neg_one]
    calc q2z (-900) ≤ q2z (-721) := q2z_mono (by norm_num)
    _ = (1/2) * q2z (-720) := h721
    _ ≤ (3/4) * q2z (-720) := by
        have := q2z_pos (-720)
        linarith
    _ ≤ (3/4) * (|I| * |c|) := mul_le_mul_of_nonneg_left hIclb (by norm_num)
    _ = ((3/4) * |I|) * |c| := by ring
    _ ≤ |V| * |c| := mul_le_mul_of_nonneg_right hVlb (le_of_lt hcpos)
  have hq2 : |V * c| < q2z 1023 := by
    rw [habsmul]
    have h721 : q2z 721 = 2 * q2z 720 := by
      rw [show (721:ℤ) = 1 + 720 by norm_num, q2z_add, q2z_one]
    have hlast : q2z 721 < q2z 1023 := q2z_strict (by norm_num)
    have hp : (0:ℚ) < q2z 720 := q2z_pos _
    calc |V| * |c| ≤ ((1 + γ) * |I|) * |c| :=
        mul_le_mul_of_nonneg_right hVub (le_of_lt hcpos)
    _ = (1 + γ) * (|I| * |c|) := by ring
    _ ≤ (1 + γ) * q2z 720 := mul_le_mul_of_nonneg_left hIcub (by linarith)
    _ ≤ (5/4) * q2z 720 := by
        have : (1 + γ) ≤ 5/4 := by linarith
        exact mul_le_mul_of_nonneg_right this (le_of_lt hp)
    _ < 2 * q2z 720 := by linarith
    _ = q2z 721 := h721.symm
    _ < q2z 1023 := hlast
  obtain ⟨hsh, hm0, herr⟩ := flq_close (V * c) hq1 hq2
  refine ⟨hsh, hm0, ?_⟩
  have hmid : |V * c - I * c| = |V - I| * |c| := by
    rw [← sub_mul, abs_mul]
  have hVc2 : |V * c| ≤ (1 + γ) * |I * c| := by
    rw [habsmul, hIc]
    calc |V| * |c| ≤ ((1 + γ) * |I|) * |c| :=
        mul_le_mul_of_nonneg_right hVub (le_of_lt hcpos)
    _ = (1 + γ) * (|I| * |c|) := by ring
  have hu : (0:ℚ) < q2z (-53) := q2z_pos _
  have hfin : |V - I| * |c| ≤ γ * |I * c| := by
    rw [hIc]
    calc |V - I| * |c| ≤ (γ * |I|) * |c| :=
        mul_le_mul_of_nonneg_right hV (le_of_lt hcpos)
    _ = γ * (|I| * |c|) := by ring
  calc |(expM (V*c) : ℚ) * q2z (expE (V*c)) - I * c|
      = |((expM (V*c) : ℚ) * q2z (expE (V*c)) - V * c) + (V * c - I * c)| := by ring_nf
  _ ≤ |(expM (V*c) : ℚ) * q2z (expE (V*c)) - V * c| + |V * c - I * c| := abs_add _ _
  _ ≤ q2z (-53) * |V * c| + γ * |I * c| := by
      rw [hmid]
      exact add_le_add herr hfin
  _ ≤ q2z (-53) * ((1 + γ) * |I * c|) + γ * |I * c| := by
      have := mul_le_mul_of_nonneg_left hVc2 (le_of_lt hu)
      linarith
  _ = (γ + (1 + γ) * q2z (-53)) * |I * c| := by ring
  _ ≤ γ' * |I * c| := mul_le_mul_of_nonneg_right hstep (le_of_lt hIcpos)

theorem q2z_le_one {k : ℤ} (h : k ≤ 0) : q2z k ≤ 1 := by
  rw [← q2z_zero]
  exact q2z_mono h

theorem one_le_q2z {k : ℤ} (h : 0 ≤ k) : 1 ≤ q2z k := by
  rw [← q2z_zero]
  exact q2z_mono h

theorem fround_to_int (m e : ℤ) (n : ℕ) (h : |(m:ℚ) * q2z e - (n:ℚ)| < 1/2) :
    fround (.finite m e) = flq ((n:ℚ)) := by
  rw [fround_finite]
  have hr : rhaz ((m:ℚ) * q2z e) = ((n:ℕ):ℤ) := by
    apply rhaz_eq_of_close _ _ (by positivity)
    rw [Int.cast_natCast]
    exact h
  rw [hr, Int.cast_natCast]

theorem fdiv_flq_1000 (n : ℕ) (h1 : 1 ≤ n) (h2 : n < 2^53) :
    fdiv (flq ((n:ℚ))) (flq (1000:ℚ)) = flq (((n:ℚ))/1000) := by
  obtain ⟨hshn, hposn, hvaln⟩ := flq_nat_exact n h1 h2
  obtain ⟨hshk, hposk, hvalk⟩ := flq_nat_exact 1000 (by norm_num) (by norm_num)
  have ek : ((1000:ℕ):ℚ) = (1000:ℚ) := by norm_num
  rw [ek] at hshk hvalk hposk
  rw [hshn, hshk, fdiv_finite _ _ _ _ (ne_of_gt hposk), hvaln, hvalk]

/-- C5: for every integer hp in [1, 1000) and rpm in [1, 10000),
`torque_to_hp(hp_to_torque(hp, rpm), rpm)` equals hp after rounding both
sides to 3 decimal places with the source's `round` helper (which rounds
hp itself exactly): both sides round to the binary64 value of hp. -/
theorem c5_hp_torque_roundtrip (hp rpm : ℕ) (h1 : 1 ≤ hp) (h2 : hp < 1000)
    (h3 : 1 ≤ rpm) (h4 : rpm < 10000) :
    rustRound3 (torque_to_hp (hp_to_torque (flq ((hp:ℚ))) (flq ((rpm:ℚ)))) (flq ((rpm:ℚ))))
        = flq ((hp:ℚ)) ∧
    rustRound3 (flq ((hp:ℚ))) = flq ((hp:ℚ)) := by
  -- exact representations of the inputs and constants
  obtain ⟨hsh_hp, hpos_hp, hval_hp⟩ := flq_nat_exact hp h1 (lt_trans h2 (by norm_num))
  obtain ⟨hsh_rpm, hpos_rpm, hval_rpm⟩ := flq_nat_exact rpm h3 (lt_trans h4 (by norm_num))
  obtain ⟨hsh52, hpos52, hval52⟩ := flq_nat_exact 5252 (by norm_num) (by norm_num)
  have e52 : ((5252:ℕ):ℚ) = (5252:ℚ) := by norm_num
  rw [e52] at hsh52 hpos52 hval52
  obtain ⟨hshK, hposK, hvalK⟩ := flq_nat_exact 1000 (by norm_num) (by norm_num)
  have eK : ((1000:ℕ):ℚ) = (1000:ℚ) := by norm_num
  rw [eK] at hshK hposK hvalK
  have hN1 : 1 ≤ hp * 5252 := by omega
  have hN2 : hp * 5252 < 2^53 := by
    have : hp * 5252 < 1000 * 5252 := by omega
    omega
  obtain ⟨hshN, hposN, hvalN⟩ := flq_nat_exact (hp * 5252) hN1 hN2
  -- numeric bounds
  have hHlb : (1:ℚ) ≤ (hp:ℚ) := by exact_mod_cast h1
  have hHub : ((hp:ℚ)) ≤ 999 := by exact_mod_cast (by omega : hp ≤ 999)
  have hRlb : (1:ℚ) ≤ (rpm:ℚ) := by exact_mod_cast h3
  have hRub : ((rpm:ℚ)) ≤ 9999 := by exact_mod_cast (by omega : rpm ≤ 9999)
  have hRpos : (0:ℚ) < (rpm:ℚ) := by linarith
  have hNlb : (5252:ℚ) ≤ ((hp * 5252 : ℕ):ℚ) := by exact_mod_cast (by omega : 5252 ≤ hp * 5252)
  have hNub : ((hp * 5252 : ℕ):ℚ) ≤ 5246748 := by
    exact_mod_cast (by omega : hp * 5252 ≤ 5246748)
  have hNpos : (0:ℚ) < ((hp * 5252 : ℕ):ℚ) := by linarith
  -- step A: hp * 5252 exactly
  have stepA : hp_to_torque (flq ((hp:ℚ))) (flq ((rpm:ℚ)))
      = fdiv (flq (((hp * 5252 : ℕ):ℚ))) (flq ((rpm:ℚ))) := by
    unfold hp_to_torque
    rw [hsh_hp, hsh52, fmul_finite, hval_hp, hval52]
    congr 2
    push_cast
    ring
  -- step B: the first rounded division
  have stepB : fdiv (flq (((hp * 5252 : ℕ):ℚ))) (flq ((rpm:ℚ)))
      = flq ((((hp * 5252 : ℕ):ℚ)) * ((rpm:ℚ))⁻¹) := by
    rw [hshN, hsh_rpm, fdiv_finite _ _ _ _ (ne_of_gt hpos_rpm), hvalN, hval_rpm,
      div_eq_mul_inv]
  have hRinv_pos : (0:ℚ) < ((rpm:ℚ))⁻¹ := inv_pos.mpr hRpos
  have habsN : |(((hp * 5252 : ℕ):ℚ))| = (((hp * 5252 : ℕ):ℚ)) := abs_of_pos hNpos
  have habsRinv : |((rpm:ℚ))⁻¹| = ((rpm:ℚ))⁻¹ := abs_of_pos hRinv_pos
  have hI1N : q2z (-520) ≤ |(((hp * 5252 : ℕ):ℚ))| := by
    rw [habsN]
    have := q2z_le_one (show ((-520):ℤ) ≤ 0 by norm_num)
    linarith
  have hI2N : |(((hp * 5252 : ℕ):ℚ))| ≤ q2z 520 := by
    rw [habsN]
    have ha : (5246748:ℚ) ≤ q2z 23 := by decide
    have hb : q2z 23 ≤ q2z 520 := q2z_mono (by norm_num)
    linarith
  have hc1R : q2z (-200) ≤ |((rpm:ℚ))⁻¹| := by
    rw [habsRinv]
    have ha : ((rpm:ℚ)) ≤ q2z 14 := by
      have : (9999:ℚ) ≤ q2z 14 := by decide
      linarith
    have hb : (q2z 14)⁻¹ ≤ ((rpm:ℚ))⁻¹ := inv_anti₀ hRpos ha
    have hcv : q2z (-14) = (q2z 14)⁻¹ := q2z_inv 14
    have hd : q2z (-200) ≤ q2z (-14) := q2z_mono (by norm_num)
    linarith
  have hc2R : |((rpm:ℚ))⁻¹| ≤ q2z 200 := by
    rw [habsRinv]
    have ha : ((rpm:ℚ))⁻¹ ≤ 1 := inv_le_one_of_one_le₀ hRlb
    have hb : (1:ℚ) ≤ q2z 200 := one_le_q2z (by norm_num)
    linarith
  obtain ⟨hsht, hmt, herrt⟩ :=
    flqStep (((hp * 5252 : ℕ):ℚ)) (((hp * 5252 : ℕ):ℚ)) (((rpm:ℚ))⁻¹) 0 (q2z (-52))
      hI1N hI2N hc1R hc2R le_rfl (by norm_num)
      (by simp)
      (by decide)
  -- step C: multiply back by rpm
  have stepC : fmul (flq ((((hp * 5252 : ℕ):ℚ)) * ((rpm:ℚ))⁻¹)) (flq ((rpm:ℚ)))
      = flq (((expM ((((hp * 5252 : ℕ):ℚ)) * ((rpm:ℚ))⁻¹) : ℚ)
          * q2z (expE ((((hp * 5252 : ℕ):ℚ)) * ((rpm:ℚ))⁻¹))) * ((rpm:ℚ))) := by
    rw [hsht, hsh_rpm, fmul_finite, hval_rpm]
  -- bounds for the second step: ideal value is N * rpm⁻¹
  have hIprod_pos : (0:ℚ) < (((hp * 5252 : ℕ):ℚ)) * ((rpm:ℚ))⁻¹ :=
    mul_pos hNpos hRinv_pos
  have habsI2 : |(((hp * 5252 : ℕ):ℚ)) * ((rpm:ℚ))⁻¹| = (((hp * 5252 : ℕ):ℚ)) * ((rpm:ℚ))⁻¹ :=
    abs_of_pos hIprod_pos
  have hI1t : q2z (-520) ≤ |(((hp * 5252 : ℕ):ℚ)) * ((rpm:ℚ))⁻¹| := by
    rw [habsI2]
    have hq14 : q2z (-14) = (q2z 14)⁻¹ := q2z_inv 14
    have ha : ((rpm:ℚ)) ≤ q2z 14 := by
      have : (9999:ℚ) ≤ q2z 14 := by decide
      linarith
    have hb : (q2z 14)⁻¹ ≤ ((rpm:ℚ))⁻¹ := inv_anti₀ hRpos ha
    have hc : q2z (-14) ≤ (((hp * 5252 : ℕ):ℚ)) * ((rpm:ℚ))⁻¹ := by
      calc q2z (-14) = 1 * q2z (-14) := by ring
      _ ≤ (((hp * 5252 : ℕ):ℚ)) * ((rpm:ℚ))⁻¹ := by
          apply mul_le_mul (by linarith) (by linarith) (le_of_lt (q2z_pos _)) (by linarith)
    have hd : q2z (-520) ≤ q2z (-14) := q2z_mono (by norm_num)
    linarith
  have hI2t : |(((hp * 5252 : ℕ):ℚ)) * ((rpm:ℚ))⁻¹| ≤ q2z 520 := by
    rw [habsI2]
    have ha : ((rpm:ℚ))⁻¹ ≤ 1 := inv_le_one_of_one_le₀ hRlb
    have hb : (((hp * 5252 : ℕ):ℚ)) * ((rpm:ℚ))⁻¹ ≤ (((hp * 5252 : ℕ):ℚ)) * 1 := by
      apply mul_le_mul_of_nonneg_left ha (by linarith)
    have hc : (5246748:ℚ) ≤ q2z 23 := by decide
    have hd : q2z 23 ≤ q2z 520 := q2z_mono (by norm_num)
    linarith
  have hc1rpm : q2z (-200) ≤ |((rpm:ℚ))| := by
    rw [abs_of_pos hRpos]
    have := q2z_le_one (show ((-200):ℤ) ≤ 0 by norm_num)
    linarith
  have hc2rpm : |((rpm:ℚ))| ≤ q2z 200 := by
    rw [abs_of_pos hRpos]
    have ha : (9999:ℚ) ≤ q2z 14 := by decide
    have hb : q2z 14 ≤ q2z 200 := q2z_mono (by norm_num)
    linarith
  obtain ⟨hshu, hmu, herru⟩ :=
    flqStep ((expM ((((hp * 5252 : ℕ):ℚ)) * ((rpm:ℚ))⁻¹) : ℚ)
        * q2z (expE ((((hp * 5252 : ℕ):ℚ)) * ((rpm:ℚ))⁻¹)))
      ((((hp * 5252 : ℕ):ℚ)) * ((rpm:ℚ))⁻¹) ((rpm:ℚ)) (q2z (-52)) (q2z (-51))
      hI1t hI2t hc1rpm hc2rpm (le_of_lt (q2z_pos _)) (by decide) herrt (by decide)
  -- rewrite the ideal of step C to N
  have hcancel : ((((hp * 5252 : ℕ):ℚ)) * ((rpm:ℚ))⁻¹) * ((rpm:ℚ)) = (((hp * 5252 : ℕ):ℚ)) := by
    field_simp
  rw [hcancel] at herru
  -- step D: divide by 5252
  have stepD : fdiv (flq (((expM ((((hp * 5252 : ℕ):ℚ)) * ((rpm:ℚ))⁻¹) : ℚ) * q2z (expE ((((hp * 5252 : ℕ):ℚ)) * ((rpm:ℚ))⁻¹))) * ((rpm:ℚ)))) (flq (5252:ℚ)) = flq (((expM (((expM ((((hp * 5252 : ℕ):ℚ)) * ((rpm:ℚ))⁻¹) : ℚ) * q2z (expE ((((hp * 5252 : ℕ):ℚ)) * ((rpm:ℚ))⁻¹))) * ((rpm:ℚ))) : ℚ) * q2z (expE (((expM ((((hp * 5252 : ℕ):ℚ)) * ((rpm:ℚ))⁻¹) : ℚ) * q2z (expE ((((hp * 5252 : ℕ):ℚ)) * ((rpm:ℚ))⁻¹))) * ((rpm:ℚ))))) * (5252:ℚ)⁻¹) := by
    rw [hshu, hsh52, fdiv_finite _ _ _ _ (ne_of_gt hpos52), hval52, div_eq_mul_inv]
  have h52inv_pos : (0:ℚ) < ((5252:ℚ))⁻¹ := by norm_num
  have hc1f : q2z (-200) ≤ |((5252:ℚ))⁻¹| := by
    rw [abs_of_pos h52inv_pos]
    have ha : (5252:ℚ) ≤ q2z 13 := by decide
    have hb : (q2z 13)⁻¹ ≤ ((5252:ℚ))⁻¹ := inv_anti₀ (by norm_num) ha
    have hcv : q2z (-13) = (q2z 13)⁻¹ := q2z_inv 13
    have hd : q2z (-200) ≤ q2z (-13) := q2z_mono (by norm_num)
    linarith
  have hc2f : |((5252:ℚ))⁻¹| ≤ q2z 200 := by
    rw [abs_of_pos h52inv_pos]
    have ha : ((5252:ℚ))⁻¹ ≤ 1 := inv_le_one_of_one_le₀ (by norm_num)
    have hb : (1:ℚ) ≤ q2z 200 := one_le_q2z (by norm_num)
    linarith
  obtain ⟨hshP, hmP, herrP⟩ :=
    flqStep ((expM (((expM ((((hp * 5252 : ℕ):ℚ)) * ((rpm:ℚ))⁻¹) : ℚ) * q2z (expE ((((hp * 5252 : ℕ):ℚ)) * ((rpm:ℚ))⁻¹))) * ((rpm:ℚ))) : ℚ) * q2z (expE (((expM ((((hp * 5252 : ℕ):ℚ)) * ((rpm:ℚ))⁻¹) : ℚ) * q2z (expE ((((hp * 5252 : ℕ):ℚ)) * ((rpm:ℚ))⁻¹))) * ((rpm:ℚ))))) (((hp * 5252 : ℕ):ℚ)) ((5252:ℚ)⁻¹) (q2z (-51)) (q2z (-50))
      hI1N hI2N hc1f hc2f (le_of_lt (q2z_pos _)) (by decide) herru (by decide)
  have hNdiv : (((hp * 5252 : ℕ):ℚ)) * ((5252:ℚ))⁻¹ = ((hp:ℚ)) := by
    push_cast
    rw [mul_assoc, mul_inv_cancel₀ (by norm_num : (5252:ℚ) ≠ 0), mul_one]
  rw [hNdiv] at herrP
  -- step E: multiply by 1000
  have stepE : fmul (flq (((expM (((expM ((((hp * 5252 : ℕ):ℚ)) * ((rpm:ℚ))⁻¹) : ℚ) * q2z (expE ((((hp * 5252 : ℕ):ℚ)) * ((rpm:ℚ))⁻¹))) * ((rpm:ℚ))) : ℚ) * q2z (expE (((expM ((((hp * 5252 : ℕ):ℚ)) * ((rpm:ℚ))⁻¹) : ℚ) * q2z (expE ((((hp * 5252 : ℕ):ℚ)) * ((rpm:ℚ))⁻¹))) * ((rpm:ℚ))))) * (5252:ℚ)⁻¹)) (flq (1000:ℚ)) = flq (((expM (((expM (((expM ((((hp * 5252 : ℕ):ℚ)) * ((rpm:ℚ))⁻¹) : ℚ) * q2z (expE ((((hp * 5252 : ℕ):ℚ)) * ((rpm:ℚ))⁻¹))) * ((rpm:ℚ))) : ℚ) * q2z (expE (((expM ((((hp * 5252 : ℕ):ℚ)) * ((rpm:ℚ))⁻¹) : ℚ) * q2z (expE ((((hp * 5252 : ℕ):ℚ)) * ((rpm:ℚ))⁻¹))) * ((rpm:ℚ))))) * (5252:ℚ)⁻¹) : ℚ) * q2z (expE (((expM (((expM ((((hp * 5252 : ℕ):ℚ)) * ((rpm:ℚ))⁻¹) : ℚ) * q2z (expE ((((hp * 5252 : ℕ):ℚ)) * ((rpm:ℚ))⁻¹))) * ((rpm:ℚ))) : ℚ) * q2z (expE (((expM ((((hp * 5252 : ℕ):ℚ)) * ((rpm:ℚ))⁻¹) : ℚ) * q2z (expE ((((hp * 5252 : ℕ):ℚ)) * ((rpm:ℚ))⁻¹))) * ((rpm:ℚ))))) * (5252:ℚ)⁻¹))) * (1000:ℚ)) := by
    rw [hshP, hshK, fmul_finite, hvalK]
  have hHpos : (0:ℚ) < ((hp:ℚ)) := by linarith
  have hI1H : q2z (-520) ≤ |((hp:ℚ))| := by
    rw [abs_of_pos hHpos]
    have := q2z_le_one (show ((-520):ℤ) ≤ 0 by norm_num)
    linarith
  have hI2H : |((hp:ℚ))| ≤ q2z 520 := by
    rw [abs_of_pos hHpos]
    have ha : (999:ℚ) ≤ q2z 10 := by decide
    have hb : q2z 10 ≤ q2z 520 := q2z_mono (by norm_num)
    linarith
  have hc1K : q2z (-200) ≤ |(1000:ℚ)| := by
    rw [abs_of_pos (by norm_num : (0:ℚ) < 1000)]
    have := q2z_le_one (show ((-200):ℤ) ≤ 0 by norm_num)
    linarith
  have hc2K : |(1000:ℚ)| ≤ q2z 200 := by
    rw [abs_of_pos (by norm_num : (0:ℚ) < 1000)]
    have ha : (1000:ℚ) ≤ q2z 10 := by decide
    have hb : q2z 10 ≤ q2z 200 := q2z_mono (by norm_num)
    linarith
  obtain ⟨hshY, hmY, herrY⟩ :=
    flqStep ((expM (((expM (((expM ((((hp * 5252 : ℕ):ℚ)) * ((rpm:ℚ))⁻¹) : ℚ) * q2z (expE ((((hp * 5252 : ℕ):ℚ)) * ((rpm:ℚ))⁻¹))) * ((rpm:ℚ))) : ℚ) * q2z (expE (((expM ((((hp * 5252 : ℕ):ℚ)) * ((rpm:ℚ))⁻¹) : ℚ) * q2z (expE ((((hp * 5252 : ℕ):ℚ)) * ((rpm:ℚ))⁻¹))) * ((rpm:ℚ))))) * (5252:ℚ)⁻¹) : ℚ) * q2z (expE (((expM (((expM ((((hp * 5252 : ℕ):ℚ)) * ((rpm:ℚ))⁻¹) : ℚ) * q2z (expE ((((hp * 5252 : ℕ):ℚ)) * ((rpm:ℚ))⁻¹))) * ((rpm:ℚ))) : ℚ) * q2z (expE (((expM ((((hp * 5252 : ℕ):ℚ)) * ((rpm:ℚ))⁻¹) : ℚ) * q2z (expE ((((hp * 5252 : ℕ):ℚ)) * ((rpm:ℚ))⁻¹))) * ((rpm:ℚ))))) * (5252:ℚ)⁻¹))) ((hp:ℚ)) ((1000:ℚ)) (q2z (-50)) (q2z (-49))
      hI1H hI2H hc1K hc2K (le_of_lt (q2z_pos _)) (by decide) herrP (by decide)
  -- the rounded product is within 1/2 of the integer 1000 * hp
  have hHK1 : 1 ≤ 1000 * hp := by omega
  have hHK2 : 1000 * hp < 2 ^ 53 :=
    lt_trans (show 1000 * hp < 1000000 by omega) (by norm_num)
  have hhk_pos : (0:ℚ) < ((hp:ℚ)) * (1000:ℚ) := by linarith
  have hclose : |((expM (((expM (((expM (((expM ((((hp * 5252 : ℕ):ℚ)) * ((rpm:ℚ))⁻¹) : ℚ) * q2z (expE ((((hp * 5252 : ℕ):ℚ)) * ((rpm:ℚ))⁻¹))) * ((rpm:ℚ))) : ℚ) * q2z (expE (((expM ((((hp * 5252 : ℕ):ℚ)) * ((rpm:ℚ))⁻¹) : ℚ) * q2z (expE ((((hp * 5252 : ℕ):ℚ)) * ((rpm:ℚ))⁻¹))) * ((rpm:ℚ))))) * (5252:ℚ)⁻¹) : ℚ) * q2z (expE (((expM (((expM ((((hp * 5252 : ℕ):ℚ)) * ((rpm:ℚ))⁻¹) : ℚ) * q2z (expE ((((hp * 5252 : ℕ):ℚ)) * ((rpm:ℚ))⁻¹))) * ((rpm:ℚ))) : ℚ) * q2z (expE (((expM ((((hp * 5252 : ℕ):ℚ)) * ((rpm:ℚ))⁻¹) : ℚ) * q2z (expE ((((hp * 5252 : ℕ):ℚ)) * ((rpm:ℚ))⁻¹))) * ((rpm:ℚ))))) * (5252:ℚ)⁻¹))) * (1000:ℚ)) : ℚ) * q2z (expE (((expM (((expM (((expM ((((hp * 5252 : ℕ):ℚ)) * ((rpm:ℚ))⁻¹) : ℚ) * q2z (expE ((((hp * 5252 : ℕ):ℚ)) * ((rpm:ℚ))⁻¹))) * ((rpm:ℚ))) : ℚ) * q2z (expE (((expM ((((hp * 5252 : ℕ):ℚ)) * ((rpm:ℚ))⁻¹) : ℚ) * q2z (expE ((((hp * 5252 : ℕ):ℚ)) * ((rpm:ℚ))⁻¹))) * ((rpm:ℚ))))) * (5252:ℚ)⁻¹) : ℚ) * q2z (expE (((expM (((expM ((((hp * 5252 : ℕ):ℚ)) * ((rpm:ℚ))⁻¹) : ℚ) * q2z (expE ((((hp * 5252 : ℕ):ℚ)) * ((rpm:ℚ))⁻¹))) * ((rpm:ℚ))) : ℚ) * q2z (expE (((expM ((((hp * 5252 : ℕ):ℚ)) * ((rpm:ℚ))⁻¹) : ℚ) * q2z (expE ((((hp * 5252 : ℕ):ℚ)) * ((rpm:ℚ))⁻¹))) * ((rpm:ℚ))))) * (5252:ℚ)⁻¹))) * (1000:ℚ)))) - (((1000 * hp : ℕ):ℚ))| < 1/2 := by
    have hcast : (((1000 * hp : ℕ):ℚ)) = ((hp:ℚ)) * (1000:ℚ) := by
      push_cast
      ring
    rw [hcast]
    have habsH1000 : |((hp:ℚ)) * (1000:ℚ)| = ((hp:ℚ)) * (1000:ℚ) := abs_of_pos hhk_pos
    have hb1 : q2z (-49) * |((hp:ℚ)) * (1000:ℚ)| ≤ q2z (-49) * 999000 := by
      rw [habsH1000]
      apply mul_le_mul_of_nonneg_left _ (le_of_lt (q2z_pos _))
      linarith
    have hb2 : q2z (-49) * (999000:ℚ) < 1/2 := by decide
    linarith [herrY]
  have hfinalcast : (((1000 * hp : ℕ):ℚ)) / 1000 = ((hp:ℚ)) := by
    push_cast
    exact mul_div_cancel_left₀ _ (by norm_num)
  constructor
  · -- left: the full round trip
    rw [stepA, stepB]
    unfold torque_to_hp rustRound3
    rw [stepC, stepD, stepE, hshY,
      fround_to_int _ _ (1000 * hp) hclose, fdiv_flq_1000 _ hHK1 hHK2, hfinalcast]
  · -- right: rounding hp itself is exact
    unfold rustRound3
    have stepR : fmul (flq ((hp:ℚ))) (flq (1000:ℚ)) = flq (((hp:ℚ)) * (1000:ℚ)) := by
      rw [hsh_hp, hshK, fmul_finite, hval_hp, hvalK]
    rw [stepR]
    have hcast : ((hp:ℚ)) * (1000:ℚ) = (((1000 * hp : ℕ):ℚ)) := by
      push_cast
      ring
    rw [hcast]
    obtain ⟨hshHK, hposHK, hvalHK⟩ := flq_nat_exact (1000 * hp) hHK1 hHK2
    rw [hshHK]
    have hclose0 : |(expM (((1000 * hp : ℕ):ℚ)) : ℚ) * q2z (expE (((1000 * hp : ℕ):ℚ))) - (((1000 * hp : ℕ):ℚ))| < 1/2 := by
      rw [hvalHK]
      simp
    rw [fround_to_int _ _ (1000 * hp) hclose0, fdiv_flq_1000 _ hHK1 hHK2, hfinalcast]

/-- C5 (witness): the round trip at hp = 350, rpm = 3000, the example of
the source's documentation. -/
theorem c5_witness :
    rustRound3 (torque_to_hp (hp_to_torque (flq ((350:ℕ):ℚ)) (flq ((3000:ℕ):ℚ)))
        (flq ((3000:ℕ):ℚ))) = flq ((350:ℕ):ℚ) ∧
    rustRound3 (flq ((350:ℕ):ℚ)) = flq ((350:ℕ):ℚ) :=
  c5_hp_torque_roundtrip 350 3000 (by decide) (by decide) (by decide) (by decide)

/-- C4 (amended): for finite inputs whose magnitudes lie between `2^-100`
and `2^100` (`r` and `a` in particular nonzero), the round trip
`mph_from_oss(oss_from_mph(mph, r, a), r, a)` is finite and within
`2^-49` relative error of `mph` — a few machine epsilons, but not within
one machine epsilon `2^-52` as claimed (see the counterexample). -/
theorem c4_roundtrip_bounded_error (mm em mr er ma ea : ℤ)
    (hm1 : q2z (-100) ≤ |((mm:ℚ) * q2z em)|) (hm2 : |((mm:ℚ) * q2z em)| ≤ q2z 100)
    (hr1 : q2z (-100) ≤ |((mr:ℚ) * q2z er)|) (hr2 : |((mr:ℚ) * q2z er)| ≤ q2z 100)
    (ha1 : q2z (-100) ≤ |((ma:ℚ) * q2z ea)|) (ha2 : |((ma:ℚ) * q2z ea)| ≤ q2z 100) :
    (mph_from_oss (oss_from_mph (.finite mm em) (.finite mr er) (.finite ma ea))
        (.finite mr er) (.finite ma ea)).isFinite = true ∧
    |(mph_from_oss (oss_from_mph (.finite mm em) (.finite mr er) (.finite ma ea))
        (.finite mr er) (.finite ma ea)).toQ - ((mm:ℚ) * q2z em)|
      ≤ q2z (-49) * |((mm:ℚ) * q2z em)| := by
  have hXpos : 0 < |((mm:ℚ) * q2z em)| := lt_of_lt_of_le (q2z_pos _) hm1
  have hYpos : 0 < |((mr:ℚ) * q2z er)| := lt_of_lt_of_le (q2z_pos _) hr1
  have hZpos : 0 < |((ma:ℚ) * q2z ea)| := lt_of_lt_of_le (q2z_pos _) ha1
  have hXne : ((mm:ℚ) * q2z em) ≠ 0 := abs_pos.mp hXpos
  have hYne : ((mr:ℚ) * q2z er) ≠ 0 := abs_pos.mp hYpos
  have hZne : ((ma:ℚ) * q2z ea) ≠ 0 := abs_pos.mp hZpos
  have hmrne : mr ≠ 0 := by
    intro h
    apply hYne
    rw [h]
    push_cast
    ring
  have hmane : ma ≠ 0 := by
    intro h
    apply hZne
    rw [h]
    push_cast
    ring
  obtain ⟨hsh60, hpos60, hval60⟩ := flq_nat_exact 60 (by norm_num) (by norm_num)
  have e60 : ((60:ℕ):ℚ) = (60:ℚ) := by norm_num
  rw [e60] at hsh60 hpos60 hval60
  -- (1/60) and 60 bounds
  have h60inv_pos : (0:ℚ) < ((60:ℚ))⁻¹ := by norm_num
  have habs60inv : |((60:ℚ))⁻¹| = ((60:ℚ))⁻¹ := abs_of_pos h60inv_pos
  have h60ia : q2z (-6) ≤ |((60:ℚ))⁻¹| := by
    rw [habs60inv]
    decide
  have h60ib : |((60:ℚ))⁻¹| ≤ 1 := by
    rw [habs60inv]
    norm_num
  have hc60i1 : q2z (-200) ≤ |((60:ℚ))⁻¹| := le_trans (q2z_mono (by norm_num)) h60ia
  have hc60i2 : |((60:ℚ))⁻¹| ≤ q2z 200 := le_trans h60ib (one_le_q2z (by norm_num))
  have hc60a : q2z (-200) ≤ |(60:ℚ)| := by
    rw [abs_of_pos (by norm_num : (0:ℚ) < 60)]
    have h1 : q2z (-200) ≤ (1:ℚ) := q2z_le_one (by norm_num)
    linarith
  have hc60b : |(60:ℚ)| ≤ q2z 200 := by
    rw [abs_of_pos (by norm_num : (0:ℚ) < 60)]
    have h1 : (60:ℚ) ≤ q2z 6 := by decide
    have h2 : q2z 6 ≤ q2z 200 := q2z_mono (by norm_num)
    linarith
  -- inverse bounds for Y and Z
  have habsZinv : |((ma:ℚ) * q2z ea)⁻¹| = |((ma:ℚ) * q2z ea)|⁻¹ := abs_inv _
  have hZi1 : q2z (-100) ≤ |((ma:ℚ) * q2z ea)⁻¹| := by
    have h1 : q2z (-100) = (q2z 100)⁻¹ := q2z_inv 100
    rw [habsZinv, h1]
    exact inv_anti₀ hZpos ha2
  have hZi2 : |((ma:ℚ) * q2z ea)⁻¹| ≤ q2z 100 := by
    rw [habsZinv]
    have h1 : (q2z (-100))⁻¹ = q2z 100 := by
      rw [q2z_inv 100]
      exact inv_inv _
    rw [← h1]
    exact inv_anti₀ (q2z_pos _) ha1
  have habsYinv : |((mr:ℚ) * q2z er)⁻¹| = |((mr:ℚ) * q2z er)|⁻¹ := abs_inv _
  have hYi1 : q2z (-100) ≤ |((mr:ℚ) * q2z er)⁻¹| := by
    have h1 : q2z (-100) = (q2z 100)⁻¹ := q2z_inv 100
    rw [habsYinv, h1]
    exact inv_anti₀ hYpos hr2
  have hYi2 : |((mr:ℚ) * q2z er)⁻¹| ≤ q2z 100 := by
    rw [habsYinv]
    have h1 : (q2z (-100))⁻¹ = q2z 100 := by
      rw [q2z_inv 100]
      exact inv_inv _
    rw [← h1]
    exact inv_anti₀ (q2z_pos _) hr1
  -- tight bounds on the simplified ideals
  have habsYX : |(((mr:ℚ) * q2z er) * ((mm:ℚ) * q2z em))| = |((mr:ℚ) * q2z er)| * |((mm:ℚ) * q2z em)| := abs_mul _ _
  have hYX1 : q2z (-200) ≤ |(((mr:ℚ) * q2z er) * ((mm:ℚ) * q2z em))| := by
    rw [habsYX, show ((-200):ℤ) = -100 + -100 by norm_num, q2z_add]
    exact mul_le_mul hr1 hm1 (le_of_lt (q2z_pos _)) (le_of_lt hYpos)
  have hYX2 : |(((mr:ℚ) * q2z er) * ((mm:ℚ) * q2z em))| ≤ q2z 200 := by
    rw [habsYX, show ((200):ℤ) = 100 + 100 by norm_num, q2z_add]
    exact mul_le_mul hr2 hm2 (le_of_lt hXpos) (le_of_lt (q2z_pos _))
  have habsI2 : |((((mr:ℚ) * q2z er) * ((mm:ℚ) * q2z em)) * (60:ℚ)⁻¹)| = |(((mr:ℚ) * q2z er) * ((mm:ℚ) * q2z em))| * |((60:ℚ))⁻¹| := abs_mul _ _
  have hI2a : q2z (-206) ≤ |((((mr:ℚ) * q2z er) * ((mm:ℚ) * q2z em)) * (60:ℚ)⁻¹)| := by
    rw [habsI2, show ((-206):ℤ) = -200 + -6 by norm_num, q2z_add]
    exact mul_le_mul hYX1 h60ia (le_of_lt (q2z_pos _)) (le_trans (le_of_lt (q2z_pos _)) hYX1)
  have hI2b : |((((mr:ℚ) * q2z er) * ((mm:ℚ) * q2z em)) * (60:ℚ)⁻¹)| ≤ q2z 200 := by
    rw [habsI2]
    calc |(((mr:ℚ) * q2z er) * ((mm:ℚ) * q2z em))| * |((60:ℚ))⁻¹| ≤ |(((mr:ℚ) * q2z er) * ((mm:ℚ) * q2z em))| * 1 :=
        mul_le_mul_of_nonneg_left h60ib (abs_nonneg _)
    _ = |(((mr:ℚ) * q2z er) * ((mm:ℚ) * q2z em))| := mul_one _
    _ ≤ q2z 200 := hYX2
  have habsI3 : |(((((mr:ℚ) * q2z er) * ((mm:ℚ) * q2z em)) * (60:ℚ)⁻¹) * ((ma:ℚ) * q2z ea))| = |((((mr:ℚ) * q2z er) * ((mm:ℚ) * q2z em)) * (60:ℚ)⁻¹)| * |((ma:ℚ) * q2z ea)| := abs_mul _ _
  have hI3a : q2z (-306) ≤ |(((((mr:ℚ) * q2z er) * ((mm:ℚ) * q2z em)) * (60:ℚ)⁻¹) * ((ma:ℚ) * q2z ea))| := by
    rw [habsI3, show ((-306):ℤ) = -206 + -100 by norm_num, q2z_add]
    exact mul_le_mul hI2a ha1 (le_of_lt (q2z_pos _)) (le_trans (le_of_lt (q2z_pos _)) hI2a)
  have hI3b : |(((((mr:ℚ) * q2z er) * ((mm:ℚ) * q2z em)) * (60:ℚ)⁻¹) * ((ma:ℚ) * q2z ea))| ≤ q2z 300 := by
    rw [habsI3, show ((300):ℤ) = 200 + 100 by norm_num, q2z_add]
    exact mul_le_mul hI2b ha2 (abs_nonneg _) (le_of_lt (q2z_pos _))
  have habsI5 : |(((mm:ℚ) * q2z em) * (60:ℚ)⁻¹)| = |((mm:ℚ) * q2z em)| * |((60:ℚ))⁻¹| := abs_mul _ _
  have hI5a : q2z (-106) ≤ |(((mm:ℚ) * q2z em) * (60:ℚ)⁻¹)| := by
    rw [habsI5, show ((-106):ℤ) = -100 + -6 by norm_num, q2z_add]
    exact mul_le_mul hm1 h60ia (le_of_lt (q2z_pos _)) (le_trans (le_of_lt (q2z_pos _)) hm1)
  have hI5b : |(((mm:ℚ) * q2z em) * (60:ℚ)⁻¹)| ≤ q2z 100 := by
    rw [habsI5]
    calc |((mm:ℚ) * q2z em)| * |((60:ℚ))⁻¹| ≤ |((mm:ℚ) * q2z em)| * 1 :=
        mul_le_mul_of_nonneg_left h60ib (abs_nonneg _)
    _ = |((mm:ℚ) * q2z em)| := mul_one _
    _ ≤ q2z 100 := hm2
  -- step 1: r * mph
  obtain ⟨hsh1, hm01, herr1⟩ :=
    flqStep ((mr:ℚ) * q2z er) ((mr:ℚ) * q2z er) ((mm:ℚ) * q2z em) 0 (q2z (-52))
      (le_trans (q2z_mono (by norm_num)) hr1) (le_trans hr2 (q2z_mono (by norm_num)))
      (le_trans (q2z_mono (by norm_num)) hm1) (le_trans hm2 (q2z_mono (by norm_num)))
      le_rfl (by norm_num) (by simp) (by decide)
  have hstep1 : fmul (.finite mr er) (.finite mm em) = flq (((mr:ℚ) * q2z er) * ((mm:ℚ) * q2z em)) := fmul_finite _ _ _ _
  -- step 2: divide by 60
  obtain ⟨hsh2, hm02, herr2⟩ :=
    flqStep ((expM (((mr:ℚ) * q2z er) * ((mm:ℚ) * q2z em)) : ℚ) * q2z (expE (((mr:ℚ) * q2z er) * ((mm:ℚ) * q2z em)))) (((mr:ℚ) * q2z er) * ((mm:ℚ) * q2z em)) ((60:ℚ)⁻¹) (q2z (-52)) (2 * q2z (-52))
      (le_trans (q2z_mono (by norm_num)) hYX1) (le_trans hYX2 (q2z_mono (by norm_num)))
      hc60i1 hc60i2 (le_of_lt (q2z_pos _)) (by decide) herr1 (by decide)
  have hstep2 : fdiv (flq (((mr:ℚ) * q2z er) * ((mm:ℚ) * q2z em))) (flq (60:ℚ)) = flq (((expM (((mr:ℚ) * q2z er) * ((mm:ℚ) * q2z em)) : ℚ) * q2z (expE (((mr:ℚ) * q2z er) * ((mm:ℚ) * q2z em)))) * (60:ℚ)⁻¹) := by
    rw [hsh1, hsh60, fdiv_finite _ _ _ _ (ne_of_gt hpos60), hval60, div_eq_mul_inv]
  -- step 3: multiply by a
  obtain ⟨hsh3, hm03, herr3⟩ :=
    flqStep ((expM (((expM (((mr:ℚ) * q2z er) * ((mm:ℚ) * q2z em)) : ℚ) * q2z (expE (((mr:ℚ) * q2z er) * ((mm:ℚ) * q2z em)))) * (60:ℚ)⁻¹) : ℚ) * q2z (expE (((expM (((mr:ℚ) * q2z er) * ((mm:ℚ) * q2z em)) : ℚ) * q2z (expE (((mr:ℚ) * q2z er) * ((mm:ℚ) * q2z em)))) * (60:ℚ)⁻¹))) ((((mr:ℚ) * q2z er) * ((mm:ℚ) * q2z em)) * (60:ℚ)⁻¹) ((ma:ℚ) * q2z ea) (2 * q2z (-52)) (3 * q2z (-52))
      (le_trans (q2z_mono (by norm_num)) hI2a) (le_trans hI2b (q2z_mono (by norm_num)))
      (le_trans (q2z_mono (by norm_num)) ha1) (le_trans ha2 (q2z_mono (by norm_num)))
      (by have := q2z_pos (-52); linarith) (by decide) herr2 (by decide)
  have hstep3 : fmul (flq (((expM (((mr:ℚ) * q2z er) * ((mm:ℚ) * q2z em)) : ℚ) * q2z (expE (((mr:ℚ) * q2z er) * ((mm:ℚ) * q2z em)))) * (60:ℚ)⁻¹)) (.finite ma ea) = flq (((expM (((expM (((mr:ℚ) * q2z er) * ((mm:ℚ) * q2z em)) : ℚ) * q2z (expE (((mr:ℚ) * q2z er) * ((mm:ℚ) * q2z em)))) * (60:ℚ)⁻¹) : ℚ) * q2z (expE (((expM (((mr:ℚ) * q2z er) * ((mm:ℚ) * q2z em)) : ℚ) * q2z (expE (((mr:ℚ) * q2z er) * ((mm:ℚ) * q2z em)))) * (60:ℚ)⁻¹))) * ((ma:ℚ) * q2z ea)) := by
    rw [hsh2, fmul_finite]
  -- step 4: divide by a
  obtain ⟨hsh4, hm04, herr4⟩ :=
    flqStep ((expM (((expM (((expM (((mr:ℚ) * q2z er) * ((mm:ℚ) * q2z em)) : ℚ) * q2z (expE (((mr:ℚ) * q2z er) * ((mm:ℚ) * q2z em)))) * (60:ℚ)⁻¹) : ℚ) * q2z (expE (((expM (((mr:ℚ) * q2z er) * ((mm:ℚ) * q2z em)) : ℚ) * q2z (expE (((mr:ℚ) * q2z er) * ((mm:ℚ) * q2z em)))) * (60:ℚ)⁻¹))) * ((ma:ℚ) * q2z ea)) : ℚ) * q2z (expE (((expM (((expM (((mr:ℚ) * q2z er) * ((mm:ℚ) * q2z em)) : ℚ) * q2z (expE (((mr:ℚ) * q2z er) * ((mm:ℚ) * q2z em)))) * (60:ℚ)⁻¹) : ℚ) * q2z (expE (((expM (((mr:ℚ) * q2z er) * ((mm:ℚ) * q2z em)) : ℚ) * q2z (expE (((mr:ℚ) * q2z er) * ((mm:ℚ) * q2z em)))) * (60:ℚ)⁻¹))) * ((ma:ℚ) * q2z ea)))) (((((mr:ℚ) * q2z er) * ((mm:ℚ) * q2z em)) * (60:ℚ)⁻¹) * ((ma:ℚ) * q2z ea)) ((ma:ℚ) * q2z ea)⁻¹ (3 * q2z (-52)) (4 * q2z (-52))
      (le_trans (q2z_mono (by norm_num)) hI3a) (le_trans hI3b (q2z_mono (by norm_num)))
      (le_trans (q2z_mono (by norm_num)) hZi1) (le_trans hZi2 (q2z_mono (by norm_num)))
      (by have := q2z_pos (-52); linarith) (by decide) herr3 (by decide)
  have hstep4 : fdiv (flq (((expM (((expM (((mr:ℚ) * q2z er) * ((mm:ℚ) * q2z em)) : ℚ) * q2z (expE (((mr:ℚ) * q2z er) * ((mm:ℚ) * q2z em)))) * (60:ℚ)⁻¹) : ℚ) * q2z (expE (((expM (((mr:ℚ) * q2z er) * ((mm:ℚ) * q2z em)) : ℚ) * q2z (expE (((mr:ℚ) * q2z er) * ((mm:ℚ) * q2z em)))) * (60:ℚ)⁻¹))) * ((ma:ℚ) * q2z ea))) (.finite ma ea) = flq (((expM (((expM (((expM (((mr:ℚ) * q2z er) * ((mm:ℚ) * q2z em)) : ℚ) * q2z (expE (((mr:ℚ) * q2z er) * ((mm:ℚ) * q2z em)))) * (60:ℚ)⁻¹) : ℚ) * q2z (expE (((expM (((mr:ℚ) * q2z er) * ((mm:ℚ) * q2z em)) : ℚ) * q2z (expE (((mr:ℚ) * q2z er) * ((mm:ℚ) * q2z em)))) * (60:ℚ)⁻¹))) * ((ma:ℚ) * q2z ea)) : ℚ) * q2z (expE (((expM (((expM (((mr:ℚ) * q2z er) * ((mm:ℚ) * q2z em)) : ℚ) * q2z (expE (((mr:ℚ) * q2z er) * ((mm:ℚ) * q2z em)))) * (60:ℚ)⁻¹) : ℚ) * q2z (expE (((expM (((mr:ℚ) * q2z er) * ((mm:ℚ) * q2z em)) : ℚ) * q2z (expE (((mr:ℚ) * q2z er) * ((mm:ℚ) * q2z em)))) * (60:ℚ)⁻¹))) * ((ma:ℚ) * q2z ea)))) * ((ma:ℚ) * q2z ea)⁻¹) := by
    rw [hsh3, fdiv_finite _ _ _ _ hmane, div_eq_mul_inv]
  have hcanc4 : (((((mr:ℚ) * q2z er) * ((mm:ℚ) * q2z em)) * (60:ℚ)⁻¹) * ((ma:ℚ) * q2z ea)) * ((ma:ℚ) * q2z ea)⁻¹ = ((((mr:ℚ) * q2z er) * ((mm:ℚ) * q2z em)) * (60:ℚ)⁻¹) := by
    field_simp
    ring
  rw [hcanc4] at herr4
  -- step 5: divide by r
  obtain ⟨hsh5, hm05, herr5⟩ :=
    flqStep ((expM (((expM (((expM (((expM (((mr:ℚ) * q2z er) * ((mm:ℚ) * q2z em)) : ℚ) * q2z (expE (((mr:ℚ) * q2z er) * ((mm:ℚ) * q2z em)))) * (60:ℚ)⁻¹) : ℚ) * q2z (expE (((expM (((mr:ℚ) * q2z er) * ((mm:ℚ) * q2z em)) : ℚ) * q2z (expE (((mr:ℚ) * q2z er) * ((mm:ℚ) * q2z em)))) * (60:ℚ)⁻¹))) * ((ma:ℚ) * q2z ea)) : ℚ) * q2z (expE (((expM (((expM (((mr:ℚ) * q2z er) * ((mm:ℚ) * q2z em)) : ℚ) * q2z (expE (((mr:ℚ) * q2z er) * ((mm:ℚ) * q2z em)))) * (60:ℚ)⁻¹) : ℚ) * q2z (expE (((expM (((mr:ℚ) * q2z er) * ((mm:ℚ) * q2z em)) : ℚ) * q2z (expE (((mr:ℚ) * q2z er) * ((mm:ℚ) * q2z em)))) * (60:ℚ)⁻¹))) * ((ma:ℚ) * q2z ea)))) * ((ma:ℚ) * q2z ea)⁻¹) : ℚ) * q2z (expE (((expM (((expM (((expM (((mr:ℚ) * q2z er) * ((mm:ℚ) * q2z em)) : ℚ) * q2z (expE (((mr:ℚ) * q2z er) * ((mm:ℚ) * q2z em)))) * (60:ℚ)⁻¹) : ℚ) * q2z (expE (((expM (((mr:ℚ) * q2z er) * ((mm:ℚ) * q2z em)) : ℚ) * q2z (expE (((mr:ℚ) * q2z er) * ((mm:ℚ) * q2z em)))) * (60:ℚ)⁻¹))) * ((ma:ℚ) * q2z ea)) : ℚ) * q2z (expE (((expM (((expM (((mr:ℚ) * q2z er) * ((mm:ℚ) * q2z em)) : ℚ) * q2z (expE (((mr:ℚ) * q2z er) * ((mm:ℚ) * q2z em)))) * (60:ℚ)⁻¹) : ℚ) * q2z (expE (((expM (((mr:ℚ) * q2z er) * ((mm:ℚ) * q2z em)) : ℚ) * q2z (expE (((mr:ℚ) * q2z er) * ((mm:ℚ) * q2z em)))) * (60:ℚ)⁻¹))) * ((ma:ℚ) * q2z ea)))) * ((ma:ℚ) * q2z ea)⁻¹))) ((((mr:ℚ) * q2z er) * ((mm:ℚ) * q2z em)) * (60:ℚ)⁻¹) ((mr:ℚ) * q2z er)⁻¹ (4 * q2z (-52)) (5 * q2z (-52))
      (le_trans (q2z_mono (by norm_num)) hI2a) (le_trans hI2b (q2z_mono (by norm_num)))
      (le_trans (q2z_mono (by norm_num)) hYi1) (le_trans hYi2 (q2z_mono (by norm_num)))
      (by have := q2z_pos (-52); linarith) (by decide) herr4 (by decide)
  have hstep5 : fdiv (flq (((expM (((expM (((expM (((mr:ℚ) * q2z er) * ((mm:ℚ) * q2z em)) : ℚ) * q2z (expE (((mr:ℚ) * q2z er) * ((mm:ℚ) * q2z em)))) * (60:ℚ)⁻¹) : ℚ) * q2z (expE (((expM (((mr:ℚ) * q2z er) * ((mm:ℚ) * q2z em)) : ℚ) * q2z (expE (((mr:ℚ) * q2z er) * ((mm:ℚ) * q2z em)))) * (60:ℚ)⁻¹))) * ((ma:ℚ) * q2z ea)) : ℚ) * q2z (expE (((expM (((expM (((mr:ℚ) * q2z er) * ((mm:ℚ) * q2z em)) : ℚ) * q2z (expE (((mr:ℚ) * q2z er) * ((mm:ℚ) * q2z em)))) * (60:ℚ)⁻¹) : ℚ) * q2z (expE (((expM (((mr:ℚ) * q2z er) * ((mm:ℚ) * q2z em)) : ℚ) * q2z (expE (((mr:ℚ) * q2z er) * ((mm:ℚ) * q2z em)))) * (60:ℚ)⁻¹))) * ((ma:ℚ) * q2z ea)))) * ((ma:ℚ) * q2z ea)⁻¹)) (.finite mr er) = flq (((expM (((expM (((expM (((expM (((mr:ℚ) * q2z er) * ((mm:ℚ) * q2z em)) : ℚ) * q2z (expE (((mr:ℚ) * q2z er) * ((mm:ℚ) * q2z em)))) * (60:ℚ)⁻¹) : ℚ) * q2z (expE (((expM (((mr:ℚ) * q2z er) * ((mm:ℚ) * q2z em)) : ℚ) * q2z (expE (((mr:ℚ) * q2z er) * ((mm:ℚ) * q2z em)))) * (60:ℚ)⁻¹))) * ((ma:ℚ) * q2z ea)) : ℚ) * q2z (expE (((expM (((expM (((mr:ℚ) * q2z er) * ((mm:ℚ) * q2z em)) : ℚ) * q2z (expE (((mr:ℚ) * q2z er) * ((mm:ℚ) * q2z em)))) * (60:ℚ)⁻¹) : ℚ) * q2z (expE (((expM (((mr:ℚ) * q2z er) * ((mm:ℚ) * q2z em)) : ℚ) * q2z (expE (((mr:ℚ) * q2z er) * ((mm:ℚ) * q2z em)))) * (60:ℚ)⁻¹))) * ((ma:ℚ) * q2z ea)))) * ((ma:ℚ) * q2z ea)⁻¹) : ℚ) * q2z (expE (((expM (((expM (((expM (((mr:ℚ) * q2z er) * ((mm:ℚ) * q2z em)) : ℚ) * q2z (expE (((mr:ℚ) * q2z er) * ((mm:ℚ) * q2z em)))) * (60:ℚ)⁻¹) : ℚ) * q2z (expE (((expM (((mr:ℚ) * q2z er) * ((mm:ℚ) * q2z em)) : ℚ) * q2z (expE (((mr:ℚ) * q2z er) * ((mm:ℚ) * q2z em)))) * (60:ℚ)⁻¹))) * ((ma:ℚ) * q2z ea)) : ℚ) * q2z (expE (((expM (((expM (((mr:ℚ) * q2z er) * ((mm:ℚ) * q2z em)) : ℚ) * q2z (expE (((mr:ℚ) * q2z er) * ((mm:ℚ) * q2z em)))) * (60:ℚ)⁻¹) : ℚ) * q2z (expE (((expM (((mr:ℚ) * q2z er) * ((mm:ℚ) * q2z em)) : ℚ) * q2z (expE (((mr:ℚ) * q2z er) * ((mm:ℚ) * q2z em)))) * (60:ℚ)⁻¹))) * ((ma:ℚ) * q2z ea)))) * ((ma:ℚ) * q2z ea)⁻¹))) * ((mr:ℚ) * q2z er)⁻¹) := by
    rw [hsh4, fdiv_finite _ _ _ _ hmrne, div_eq_mul_inv]
  have hcanc5 : ((((mr:ℚ) * q2z er) * ((mm:ℚ) * q2z em)) * (60:ℚ)⁻¹) * ((mr:ℚ) * q2z er)⁻¹ = (((mm:ℚ) * q2z em) * (60:ℚ)⁻¹) := by
    field_simp
    ring
  rw [hcanc5] at herr5
  -- step 6: multiply by 60
  obtain ⟨hsh6, hm06, herr6⟩ :=
    flqStep ((expM (((expM (((expM (((expM (((expM (((mr:ℚ) * q2z er) * ((mm:ℚ) * q2z em)) : ℚ) * q2z (expE (((mr:ℚ) * q2z er) * ((mm:ℚ) * q2z em)))) * (60:ℚ)⁻¹) : ℚ) * q2z (expE (((expM (((mr:ℚ) * q2z er) * ((mm:ℚ) * q2z em)) : ℚ) * q2z (expE (((mr:ℚ) * q2z er) * ((mm:ℚ) * q2z em)))) * (60:ℚ)⁻¹))) * ((ma:ℚ) * q2z ea)) : ℚ) * q2z (expE (((expM (((expM (((mr:ℚ) * q2z er) * ((mm:ℚ) * q2z em)) : ℚ) * q2z (expE (((mr:ℚ) * q2z er) * ((mm:ℚ) * q2z em)))) * (60:ℚ)⁻¹) : ℚ) * q2z (expE (((expM (((mr:ℚ) * q2z er) * ((mm:ℚ) * q2z em)) : ℚ) * q2z (expE (((mr:ℚ) * q2z er) * ((mm:ℚ) * q2z em)))) * (60:ℚ)⁻¹))) * ((ma:ℚ) * q2z ea)))) * ((ma:ℚ) * q2z ea)⁻¹) : ℚ) * q2z (expE (((expM (((expM (((expM (((mr:ℚ) * q2z er) * ((mm:ℚ) * q2z em)) : ℚ) * q2z (expE (((mr:ℚ) * q2z er) * ((mm:ℚ) * q2z em)))) * (60:ℚ)⁻¹) : ℚ) * q2z (expE (((expM (((mr:ℚ) * q2z er) * ((mm:ℚ) * q2z em)) : ℚ) * q2z (expE (((mr:ℚ) * q2z er) * ((mm:ℚ) * q2z em)))) * (60:ℚ)⁻¹))) * ((ma:ℚ) * q2z ea)) : ℚ) * q2z (expE (((expM (((expM (((mr:ℚ) * q2z er) * ((mm:ℚ) * q2z em)) : ℚ) * q2z (expE (((mr:ℚ) * q2z er) * ((mm:ℚ) * q2z em)))) * (60:ℚ)⁻¹) : ℚ) * q2z (expE (((expM (((mr:ℚ) * q2z er) * ((mm:ℚ) * q2z em)) : ℚ) * q2z (expE (((mr:ℚ) * q2z er) * ((mm:ℚ) * q2z em)))) * (60:ℚ)⁻¹))) * ((ma:ℚ) * q2z ea)))) * ((ma:ℚ) * q2z ea)⁻¹))) * ((mr:ℚ) * q2z er)⁻¹) : ℚ) * q2z (expE (((expM (((expM (((expM (((expM (((mr:ℚ) * q2z er) * ((mm:ℚ) * q2z em)) : ℚ) * q2z (expE (((mr:ℚ) * q2z er) * ((mm:ℚ) * q2z em)))) * (60:ℚ)⁻¹) : ℚ) * q2z (expE (((expM (((mr:ℚ) * q2z er) * ((mm:ℚ) * q2z em)) : ℚ) * q2z (expE (((mr:ℚ) * q2z er) * ((mm:ℚ) * q2z em)))) * (60:ℚ)⁻¹))) * ((ma:ℚ) * q2z ea)) : ℚ) * q2z (expE (((expM (((expM (((mr:ℚ) * q2z er) * ((mm:ℚ) * q2z em)) : ℚ) * q2z (expE (((mr:ℚ) * q2z er) * ((mm:ℚ) * q2z em)))) * (60:ℚ)⁻¹) : ℚ) * q2z (expE (((expM (((mr:ℚ) * q2z er) * ((mm:ℚ) * q2z em)) : ℚ) * q2z (expE (((mr:ℚ) * q2z er) * ((mm:ℚ) * q2z em)))) * (60:ℚ)⁻¹))) * ((ma:ℚ) * q2z ea)))) * ((ma:ℚ) * q2z ea)⁻¹) : ℚ) * q2z (expE (((expM (((expM (((expM (((mr:ℚ) * q2z er) * ((mm:ℚ) * q2z em)) : ℚ) * q2z (expE (((mr:ℚ) * q2z er) * ((mm:ℚ) * q2z em)))) * (60:ℚ)⁻¹) : ℚ) * q2z (expE (((expM (((mr:ℚ) * q2z er) * ((mm:ℚ) * q2z em)) : ℚ) * q2z (expE (((mr:ℚ) * q2z er) * ((mm:ℚ) * q2z em)))) * (60:ℚ)⁻¹))) * ((ma:ℚ) * q2z ea)) : ℚ) * q2z (expE (((expM (((expM (((mr:ℚ) * q2z er) * ((mm:ℚ) * q2z em)) : ℚ) * q2z (expE (((mr:ℚ) * q2z er) * ((mm:ℚ) * q2z em)))) * (60:ℚ)⁻¹) : ℚ) * q2z (expE (((expM (((mr:ℚ) * q2z er) * ((mm:ℚ) * q2z em)) : ℚ) * q2z (expE (((mr:ℚ) * q2z er) * ((mm:ℚ) * q2z em)))) * (60:ℚ)⁻¹))) * ((ma:ℚ) * q2z ea)))) * ((ma:ℚ) * q2z ea)⁻¹))) * ((mr:ℚ) * q2z er)⁻¹))) (((mm:ℚ) * q2z em) * (60:ℚ)⁻¹) ((60:ℚ)) (5 * q2z (-52)) (6 * q2z (-52))
      (le_trans (q2z_mono (by norm_num)) hI5a) (le_trans hI5b (q2z_mono (by norm_num)))
      hc60a hc60b (by have := q2z_pos (-52); linarith) (by decide) herr5 (by decide)
  have hstep6 : fmul (flq (((expM (((expM (((expM (((expM (((mr:ℚ) * q2z er) * ((mm:ℚ) * q2z em)) : ℚ) * q2z (expE (((mr:ℚ) * q2z er) * ((mm:ℚ) * q2z em)))) * (60:ℚ)⁻¹) : ℚ) * q2z (expE (((expM (((mr:ℚ) * q2z er) * ((mm:ℚ) * q2z em)) : ℚ) * q2z (expE (((mr:ℚ) * q2z er) * ((mm:ℚ) * q2z em)))) * (60:ℚ)⁻¹))) * ((ma:ℚ) * q2z ea)) : ℚ) * q2z (expE (((expM (((expM (((mr:ℚ) * q2z er) * ((mm:ℚ) * q2z em)) : ℚ) * q2z (expE (((mr:ℚ) * q2z er) * ((mm:ℚ) * q2z em)))) * (60:ℚ)⁻¹) : ℚ) * q2z (expE (((expM (((mr:ℚ) * q2z er) * ((mm:ℚ) * q2z em)) : ℚ) * q2z (expE (((mr:ℚ) * q2z er) * ((mm:ℚ) * q2z em)))) * (60:ℚ)⁻¹))) * ((ma:ℚ) * q2z ea)))) * ((ma:ℚ) * q2z ea)⁻¹) : ℚ) * q2z (expE (((expM (((expM (((expM (((mr:ℚ) * q2z er) * ((mm:ℚ) * q2z em)) : ℚ) * q2z (expE (((mr:ℚ) * q2z er) * ((mm:ℚ) * q2z em)))) * (60:ℚ)⁻¹) : ℚ) * q2z (expE (((expM (((mr:ℚ) * q2z er) * ((mm:ℚ) * q2z em)) : ℚ) * q2z (expE (((mr:ℚ) * q2z er) * ((mm:ℚ) * q2z em)))) * (60:ℚ)⁻¹))) * ((ma:ℚ) * q2z ea)) : ℚ) * q2z (expE (((expM (((expM (((mr:ℚ) * q2z er) * ((mm:ℚ) * q2z em)) : ℚ) * q2z (expE (((mr:ℚ) * q2z er) * ((mm:ℚ) * q2z em)))) * (60:ℚ)⁻¹) : ℚ) * q2z (expE (((expM (((mr:ℚ) * q2z er) * ((mm:ℚ) * q2z em)) : ℚ) * q2z (expE (((mr:ℚ) * q2z er) * ((mm:ℚ) * q2z em)))) * (60:ℚ)⁻¹))) * ((ma:ℚ) * q2z ea)))) * ((ma:ℚ) * q2z ea)⁻¹))) * ((mr:ℚ) * q2z er)⁻¹)) (flq (60:ℚ)) = flq (((expM (((expM (((expM (((expM (((expM (((mr:ℚ) * q2z er) * ((mm:ℚ) * q2z em)) : ℚ) * q2z (expE (((mr:ℚ) * q2z er) * ((mm:ℚ) * q2z em)))) * (60:ℚ)⁻¹) : ℚ) * q2z (expE (((expM (((mr:ℚ) * q2z er) * ((mm:ℚ) * q2z em)) : ℚ) * q2z (expE (((mr:ℚ) * q2z er) * ((mm:ℚ) * q2z em)))) * (60:ℚ)⁻¹))) * ((ma:ℚ) * q2z ea)) : ℚ) * q2z (expE (((expM (((expM (((mr:ℚ) * q2z er) * ((mm:ℚ) * q2z em)) : ℚ) * q2z (expE (((mr:ℚ) * q2z er) * ((mm:ℚ) * q2z em)))) * (60:ℚ)⁻¹) : ℚ) * q2z (expE (((expM (((mr:ℚ) * q2z er) * ((mm:ℚ) * q2z em)) : ℚ) * q2z (expE (((mr:ℚ) * q2z er) * ((mm:ℚ) * q2z em)))) * (60:ℚ)⁻¹))) * ((ma:ℚ) * q2z ea)))) * ((ma:ℚ) * q2z ea)⁻¹) : ℚ) * q2z (expE (((expM (((expM (((expM (((mr:ℚ) * q2z er) * ((mm:ℚ) * q2z em)) : ℚ) * q2z (expE (((mr:ℚ) * q2z er) * ((mm:ℚ) * q2z em)))) * (60:ℚ)⁻¹) : ℚ) * q2z (expE (((expM (((mr:ℚ) * q2z er) * ((mm:ℚ) * q2z em)) : ℚ) * q2z (expE (((mr:ℚ) * q2z er) * ((mm:ℚ) * q2z em)))) * (60:ℚ)⁻¹))) * ((ma:ℚ) * q2z ea)) : ℚ) * q2z (expE (((expM (((expM (((mr:ℚ) * q2z er) * ((mm:ℚ) * q2z em)) : ℚ) * q2z (expE (((mr:ℚ) * q2z er) * ((mm:ℚ) * q2z em)))) * (60:ℚ)⁻¹) : ℚ) * q2z (expE (((expM (((mr:ℚ) * q2z er) * ((mm:ℚ) * q2z em)) : ℚ) * q2z (expE (((mr:ℚ) * q2z er) * ((mm:ℚ) * q2z em)))) * (60:ℚ)⁻¹))) * ((ma:ℚ) * q2z ea)))) * ((ma:ℚ) * q2z ea)⁻¹))) * ((mr:ℚ) * q2z er)⁻¹) : ℚ) * q2z (expE (((expM (((expM (((expM (((expM (((mr:ℚ) * q2z er) * ((mm:ℚ) * q2z em)) : ℚ) * q2z (expE (((mr:ℚ) * q2z er) * ((mm:ℚ) * q2z em)))) * (60:ℚ)⁻¹) : ℚ) * q2z (expE (((expM (((mr:ℚ) * q2z er) * ((mm:ℚ) * q2z em)) : ℚ) * q2z (expE (((mr:ℚ) * q2z er) * ((mm:ℚ) * q2z em)))) * (60:ℚ)⁻¹))) * ((ma:ℚ) * q2z ea)) : ℚ) * q2z (expE (((expM (((expM (((mr:ℚ) * q2z er) * ((mm:ℚ) * q2z em)) : ℚ) * q2z (expE (((mr:ℚ) * q2z er) * ((mm:ℚ) * q2z em)))) * (60:ℚ)⁻¹) : ℚ) * q2z (expE (((expM (((mr:ℚ) * q2z er) * ((mm:ℚ) * q2z em)) : ℚ) * q2z (expE (((mr:ℚ) * q2z er) * ((mm:ℚ) * q2z em)))) * (60:ℚ)⁻¹))) * ((ma:ℚ) * q2z ea)))) * ((ma:ℚ) * q2z ea)⁻¹) : ℚ) * q2z (expE (((expM (((expM (((expM (((mr:ℚ) * q2z er) * ((mm:ℚ) * q2z em)) : ℚ) * q2z (expE (((mr:ℚ) * q2z er) * ((mm:ℚ) * q2z em)))) * (60:ℚ)⁻¹) : ℚ) * q2z (expE (((expM (((mr:ℚ) * q2z er) * ((mm:ℚ) * q2z em)) : ℚ) * q2z (expE (((mr:ℚ) * q2z er) * ((mm:ℚ) * q2z em)))) * (60:ℚ)⁻¹))) * ((ma:ℚ) * q2z ea)) : ℚ) * q2z (expE (((expM (((expM (((mr:ℚ) * q2z er) * ((mm:ℚ) * q2z em)) : ℚ) * q2z (expE (((mr:ℚ) * q2z er) * ((mm:ℚ) * q2z em)))) * (60:ℚ)⁻¹) : ℚ) * q2z (expE (((expM (((mr:ℚ) * q2z er) * ((mm:ℚ) * q2z em)) : ℚ) * q2z (expE (((mr:ℚ) * q2z er) * ((mm:ℚ) * q2z em)))) * (60:ℚ)⁻¹))) * ((ma:ℚ) * q2z ea)))) * ((ma:ℚ) * q2z ea)⁻¹))) * ((mr:ℚ) * q2z er)⁻¹))) * (60:ℚ)) := by
    rw [hsh5, hsh60, fmul_finite, hval60]
  have hcanc6 : (((mm:ℚ) * q2z em) * (60:ℚ)⁻¹) * (60:ℚ) = ((mm:ℚ) * q2z em) := by
    field_simp
  rw [hcanc6] at herr6
  -- assemble
  have hwhole : mph_from_oss (oss_from_mph (.finite mm em) (.finite mr er) (.finite ma ea))
      (.finite mr er) (.finite ma ea) = flq (((expM (((expM (((expM (((expM (((expM (((mr:ℚ) * q2z er) * ((mm:ℚ) * q2z em)) : ℚ) * q2z (expE (((mr:ℚ) * q2z er) * ((mm:ℚ) * q2z em)))) * (60:ℚ)⁻¹) : ℚ) * q2z (expE (((expM (((mr:ℚ) * q2z er) * ((mm:ℚ) * q2z em)) : ℚ) * q2z (expE (((mr:ℚ) * q2z er) * ((mm:ℚ) * q2z em)))) * (60:ℚ)⁻¹))) * ((ma:ℚ) * q2z ea)) : ℚ) * q2z (expE (((expM (((expM (((mr:ℚ) * q2z er) * ((mm:ℚ) * q2z em)) : ℚ) * q2z (expE (((mr:ℚ) * q2z er) * ((mm:ℚ) * q2z em)))) * (60:ℚ)⁻¹) : ℚ) * q2z (expE (((expM (((mr:ℚ) * q2z er) * ((mm:ℚ) * q2z em)) : ℚ) * q2z (expE (((mr:ℚ) * q2z er) * ((mm:ℚ) * q2z em)))) * (60:ℚ)⁻¹))) * ((ma:ℚ) * q2z ea)))) * ((ma:ℚ) * q2z ea)⁻¹) : ℚ) * q2z (expE (((expM (((expM (((expM (((mr:ℚ) * q2z er) * ((mm:ℚ) * q2z em)) : ℚ) * q2z (expE (((mr:ℚ) * q2z er) * ((mm:ℚ) * q2z em)))) * (60:ℚ)⁻¹) : ℚ) * q2z (expE (((expM (((mr:ℚ) * q2z er) * ((mm:ℚ) * q2z em)) : ℚ) * q2z (expE (((mr:ℚ) * q2z er) * ((mm:ℚ) * q2z em)))) * (60:ℚ)⁻¹))) * ((ma:ℚ) * q2z ea)) : ℚ) * q2z (expE (((expM (((expM (((mr:ℚ) * q2z er) * ((mm:ℚ) * q2z em)) : ℚ) * q2z (expE (((mr:ℚ) * q2z er) * ((mm:ℚ) * q2z em)))) * (60:ℚ)⁻¹) : ℚ) * q2z (expE (((expM (((mr:ℚ) * q2z er) * ((mm:ℚ) * q2z em)) : ℚ) * q2z (expE (((mr:ℚ) * q2z er) * ((mm:ℚ) * q2z em)))) * (60:ℚ)⁻¹))) * ((ma:ℚ) * q2z ea)))) * ((ma:ℚ) * q2z ea)⁻¹))) * ((mr:ℚ) * q2z er)⁻¹) : ℚ) * q2z (expE (((expM (((expM (((expM (((expM (((mr:ℚ) * q2z er) * ((mm:ℚ) * q2z em)) : ℚ) * q2z (expE (((mr:ℚ) * q2z er) * ((mm:ℚ) * q2z em)))) * (60:ℚ)⁻¹) : ℚ) * q2z (expE (((expM (((mr:ℚ) * q2z er) * ((mm:ℚ) * q2z em)) : ℚ) * q2z (expE (((mr:ℚ) * q2z er) * ((mm:ℚ) * q2z em)))) * (60:ℚ)⁻¹))) * ((ma:ℚ) * q2z ea)) : ℚ) * q2z (expE (((expM (((expM (((mr:ℚ) * q2z er) * ((mm:ℚ) * q2z em)) : ℚ) * q2z (expE (((mr:ℚ) * q2z er) * ((mm:ℚ) * q2z em)))) * (60:ℚ)⁻¹) : ℚ) * q2z (expE (((expM (((mr:ℚ) * q2z er) * ((mm:ℚ) * q2z em)) : ℚ) * q2z (expE (((mr:ℚ) * q2z er) * ((mm:ℚ) * q2z em)))) * (60:ℚ)⁻¹))) * ((ma:ℚ) * q2z ea)))) * ((ma:ℚ) * q2z ea)⁻¹) : ℚ) * q2z (expE (((expM (((expM (((expM (((mr:ℚ) * q2z er) * ((mm:ℚ) * q2z em)) : ℚ) * q2z (expE (((mr:ℚ) * q2z er) * ((mm:ℚ) * q2z em)))) * (60:ℚ)⁻¹) : ℚ) * q2z (expE (((expM (((mr:ℚ) * q2z er) * ((mm:ℚ) * q2z em)) : ℚ) * q2z (expE (((mr:ℚ) * q2z er) * ((mm:ℚ) * q2z em)))) * (60:ℚ)⁻¹))) * ((ma:ℚ) * q2z ea)) : ℚ) * q2z (expE (((expM (((expM (((mr:ℚ) * q2z er) * ((mm:ℚ) * q2z em)) : ℚ) * q2z (expE (((mr:ℚ) * q2z er) * ((mm:ℚ) * q2z em)))) * (60:ℚ)⁻¹) : ℚ) * q2z (expE (((expM (((mr:ℚ) * q2z er) * ((mm:ℚ) * q2z em)) : ℚ) * q2z (expE (((mr:ℚ) * q2z er) * ((mm:ℚ) * q2z em)))) * (60:ℚ)⁻¹))) * ((ma:ℚ) * q2z ea)))) * ((ma:ℚ) * q2z ea)⁻¹))) * ((mr:ℚ) * q2z er)⁻¹))) * (60:ℚ)) := by
    unfold oss_from_mph mph_from_oss
    rw [hstep1, hstep2, hstep3, hstep4, hstep5, hstep6]
  rw [hwhole, hsh6]
  constructor
  · rfl
  · show |((expM (((expM (((expM (((expM (((expM (((expM (((mr:ℚ) * q2z er) * ((mm:ℚ) * q2z em)) : ℚ) * q2z (expE (((mr:ℚ) * q2z er) * ((mm:ℚ) * q2z em)))) * (60:ℚ)⁻¹) : ℚ) * q2z (expE (((expM (((mr:ℚ) * q2z er) * ((mm:ℚ) * q2z em)) : ℚ) * q2z (expE (((mr:ℚ) * q2z er) * ((mm:ℚ) * q2z em)))) * (60:ℚ)⁻¹))) * ((ma:ℚ) * q2z ea)) : ℚ) * q2z (expE (((expM (((expM (((mr:ℚ) * q2z er) * ((mm:ℚ) * q2z em)) : ℚ) * q2z (expE (((mr:ℚ) * q2z er) * ((mm:ℚ) * q2z em)))) * (60:ℚ)⁻¹) : ℚ) * q2z (expE (((expM (((mr:ℚ) * q2z er) * ((mm:ℚ) * q2z em)) : ℚ) * q2z (expE (((mr:ℚ) * q2z er) * ((mm:ℚ) * q2z em)))) * (60:ℚ)⁻¹))) * ((ma:ℚ) * q2z ea)))) * ((ma:ℚ) * q2z ea)⁻¹) : ℚ) * q2z (expE (((expM (((expM (((expM (((mr:ℚ) * q2z er) * ((mm:ℚ) * q2z em)) : ℚ) * q2z (expE (((mr:ℚ) * q2z er) * ((mm:ℚ) * q2z em)))) * (60:ℚ)⁻¹) : ℚ) * q2z (expE (((expM (((mr:ℚ) * q2z er) * ((mm:ℚ) * q2z em)) : ℚ) * q2z (expE (((mr:ℚ) * q2z er) * ((mm:ℚ) * q2z em)))) * (60:ℚ)⁻¹))) * ((ma:ℚ) * q2z ea)) : ℚ) * q2z (expE (((expM (((expM (((mr:ℚ) * q2z er) * ((mm:ℚ) * q2z em)) : ℚ) * q2z (expE (((mr:ℚ) * q2z er) * ((mm:ℚ) * q2z em)))) * (60:ℚ)⁻¹) : ℚ) * q2z (expE (((expM (((mr:ℚ) * q2z er) * ((mm:ℚ) * q2z em)) : ℚ) * q2z (expE (((mr:ℚ) * q2z er) * ((mm:ℚ) * q2z em)))) * (60:ℚ)⁻¹))) * ((ma:ℚ) * q2z ea)))) * ((ma:ℚ) * q2z ea)⁻¹))) * ((mr:ℚ) * q2z er)⁻¹) : ℚ) * q2z (expE (((expM (((expM (((expM (((expM (((mr:ℚ) * q2z er) * ((mm:ℚ) * q2z em)) : ℚ) * q2z (expE (((mr:ℚ) * q2z er) * ((mm:ℚ) * q2z em)))) * (60:ℚ)⁻¹) : ℚ) * q2z (expE (((expM (((mr:ℚ) * q2z er) * ((mm:ℚ) * q2z em)) : ℚ) * q2z (expE (((mr:ℚ) * q2z er) * ((mm:ℚ) * q2z em)))) * (60:ℚ)⁻¹))) * ((ma:ℚ) * q2z ea)) : ℚ) * q2z (expE (((expM (((expM (((mr:ℚ) * q2z er) * ((mm:ℚ) * q2z em)) : ℚ) * q2z (expE (((mr:ℚ) * q2z er) * ((mm:ℚ) * q2z em)))) * (60:ℚ)⁻¹) : ℚ) * q2z (expE (((expM (((mr:ℚ) * q2z er) * ((mm:ℚ) * q2z em)) : ℚ) * q2z (expE (((mr:ℚ) * q2z er) * ((mm:ℚ) * q2z em)))) * (60:ℚ)⁻¹))) * ((ma:ℚ) * q2z ea)))) * ((ma:ℚ) * q2z ea)⁻¹) : ℚ) * q2z (expE (((expM (((expM (((expM (((mr:ℚ) * q2z er) * ((mm:ℚ) * q2z em)) : ℚ) * q2z (expE (((mr:ℚ) * q2z er) * ((mm:ℚ) * q2z em)))) * (60:ℚ)⁻¹) : ℚ) * q2z (expE (((expM (((mr:ℚ) * q2z er) * ((mm:ℚ) * q2z em)) : ℚ) * q2z (expE (((mr:ℚ) * q2z er) * ((mm:ℚ) * q2z em)))) * (60:ℚ)⁻¹))) * ((ma:ℚ) * q2z ea)) : ℚ) * q2z (expE (((expM (((expM (((mr:ℚ) * q2z er) * ((mm:ℚ) * q2z em)) : ℚ) * q2z (expE (((mr:ℚ) * q2z er) * ((mm:ℚ) * q2z em)))) * (60:ℚ)⁻¹) : ℚ) * q2z (expE (((expM (((mr:ℚ) * q2z er) * ((mm:ℚ) * q2z em)) : ℚ) * q2z (expE (((mr:ℚ) * q2z er) * ((mm:ℚ) * q2z em)))) * (60:ℚ)⁻¹))) * ((ma:ℚ) * q2z ea)))) * ((ma:ℚ) * q2z ea)⁻¹))) * ((mr:ℚ) * q2z er)⁻¹))) * (60:ℚ)) : ℚ) * q2z (expE (((expM (((expM (((expM (((expM (((expM (((mr:ℚ) * q2z er) * ((mm:ℚ) * q2z em)) : ℚ) * q2z (expE (((mr:ℚ) * q2z er) * ((mm:ℚ) * q2z em)))) * (60:ℚ)⁻¹) : ℚ) * q2z (expE (((expM (((mr:ℚ) * q2z er) * ((mm:ℚ) * q2z em)) : ℚ) * q2z (expE (((mr:ℚ) * q2z er) * ((mm:ℚ) * q2z em)))) * (60:ℚ)⁻¹))) * ((ma:ℚ) * q2z ea)) : ℚ) * q2z (expE (((expM (((expM (((mr:ℚ) * q2z er) * ((mm:ℚ) * q2z em)) : ℚ) * q2z (expE (((mr:ℚ) * q2z er) * ((mm:ℚ) * q2z em)))) * (60:ℚ)⁻¹) : ℚ) * q2z (expE (((expM (((mr:ℚ) * q2z er) * ((mm:ℚ) * q2z em)) : ℚ) * q2z (expE (((mr:ℚ) * q2z er) * ((mm:ℚ) * q2z em)))) * (60:ℚ)⁻¹))) * ((ma:ℚ) * q2z ea)))) * ((ma:ℚ) * q2z ea)⁻¹) : ℚ) * q2z (expE (((expM (((expM (((expM (((mr:ℚ) * q2z er) * ((mm:ℚ) * q2z em)) : ℚ) * q2z (expE (((mr:ℚ) * q2z er) * ((mm:ℚ) * q2z em)))) * (60:ℚ)⁻¹) : ℚ) * q2z (expE (((expM (((mr:ℚ) * q2z er) * ((mm:ℚ) * q2z em)) : ℚ) * q2z (expE (((mr:ℚ) * q2z er) * ((mm:ℚ) * q2z em)))) * (60:ℚ)⁻¹))) * ((ma:ℚ) * q2z ea)) : ℚ) * q2z (expE (((expM (((expM (((mr:ℚ) * q2z er) * ((mm:ℚ) * q2z em)) : ℚ) * q2z (expE (((mr:ℚ) * q2z er) * ((mm:ℚ) * q2z em)))) * (60:ℚ)⁻¹) : ℚ) * q2z (expE (((expM (((mr:ℚ) * q2z er) * ((mm:ℚ) * q2z em)) : ℚ) * q2z (expE (((mr:ℚ) * q2z er) * ((mm:ℚ) * q2z em)))) * (60:ℚ)⁻¹))) * ((ma:ℚ) * q2z ea)))) * ((ma:ℚ) * q2z ea)⁻¹))) * ((mr:ℚ) * q2z er)⁻¹) : ℚ) * q2z (expE (((expM (((expM (((expM (((expM (((mr:ℚ) * q2z er) * ((mm:ℚ) * q2z em)) : ℚ) * q2z (expE (((mr:ℚ) * q2z er) * ((mm:ℚ) * q2z em)))) * (60:ℚ)⁻¹) : ℚ) * q2z (expE (((expM (((mr:ℚ) * q2z er) * ((mm:ℚ) * q2z em)) : ℚ) * q2z (expE (((mr:ℚ) * q2z er) * ((mm:ℚ) * q2z em)))) * (60:ℚ)⁻¹))) * ((ma:ℚ) * q2z ea)) : ℚ) * q2z (expE (((expM (((expM (((mr:ℚ) * q2z er) * ((mm:ℚ) * q2z em)) : ℚ) * q2z (expE (((mr:ℚ) * q2z er) * ((mm:ℚ) * q2z em)))) * (60:ℚ)⁻¹) : ℚ) * q2z (expE (((expM (((mr:ℚ) * q2z er) * ((mm:ℚ) * q2z em)) : ℚ) * q2z (expE (((mr:ℚ) * q2z er) * ((mm:ℚ) * q2z em)))) * (60:ℚ)⁻¹))) * ((ma:ℚ) * q2z ea)))) * ((ma:ℚ) * q2z ea)⁻¹) : ℚ) * q2z (expE (((expM (((expM (((expM (((mr:ℚ) * q2z er) * ((mm:ℚ) * q2z em)) : ℚ) * q2z (expE (((mr:ℚ) * q2z er) * ((mm:ℚ) * q2z em)))) * (60:ℚ)⁻¹) : ℚ) * q2z (expE (((expM (((mr:ℚ) * q2z er) * ((mm:ℚ) * q2z em)) : ℚ) * q2z (expE (((mr:ℚ) * q2z er) * ((mm:ℚ) * q2z em)))) * (60:ℚ)⁻¹))) * ((ma:ℚ) * q2z ea)) : ℚ) * q2z (expE (((expM (((expM (((mr:ℚ) * q2z er) * ((mm:ℚ) * q2z em)) : ℚ) * q2z (expE (((mr:ℚ) * q2z er) * ((mm:ℚ) * q2z em)))) * (60:ℚ)⁻¹) : ℚ) * q2z (expE (((expM (((mr:ℚ) * q2z er) * ((mm:ℚ) * q2z em)) : ℚ) * q2z (expE (((mr:ℚ) * q2z er) * ((mm:ℚ) * q2z em)))) * (60:ℚ)⁻¹))) * ((ma:ℚ) * q2z ea)))) * ((ma:ℚ) * q2z ea)⁻¹))) * ((mr:ℚ) * q2z er)⁻¹))) * (60:ℚ)))) - ((mm:ℚ) * q2z em)| ≤ q2z (-49) * |((mm:ℚ) * q2z em)|
    have hle : (6:ℚ) * q2z (-52) ≤ q2z (-49) := by decide
    calc |((expM (((expM (((expM (((expM (((expM (((expM (((mr:ℚ) * q2z er) * ((mm:ℚ) * q2z em)) : ℚ) * q2z (expE (((mr:ℚ) * q2z er) * ((mm:ℚ) * q2z em)))) * (60:ℚ)⁻¹) : ℚ) * q2z (expE (((expM (((mr:ℚ) * q2z er) * ((mm:ℚ) * q2z em)) : ℚ) * q2z (expE (((mr:ℚ) * q2z er) * ((mm:ℚ) * q2z em)))) * (60:ℚ)⁻¹))) * ((ma:ℚ) * q2z ea)) : ℚ) * q2z (expE (((expM (((expM (((mr:ℚ) * q2z er) * ((mm:ℚ) * q2z em)) : ℚ) * q2z (expE (((mr:ℚ) * q2z er) * ((mm:ℚ) * q2z em)))) * (60:ℚ)⁻¹) : ℚ) * q2z (expE (((expM (((mr:ℚ) * q2z er) * ((mm:ℚ) * q2z em)) : ℚ) * q2z (expE (((mr:ℚ) * q2z er) * ((mm:ℚ) * q2z em)))) * (60:ℚ)⁻¹))) * ((ma:ℚ) * q2z ea)))) * ((ma:ℚ) * q2z ea)⁻¹) : ℚ) * q2z (expE (((expM (((expM (((expM (((mr:ℚ) * q2z er) * ((mm:ℚ) * q2z em)) : ℚ) * q2z (expE (((mr:ℚ) * q2z er) * ((mm:ℚ) * q2z em)))) * (60:ℚ)⁻¹) : ℚ) * q2z (expE (((expM (((mr:ℚ) * q2z er) * ((mm:ℚ) * q2z em)) : ℚ) * q2z (expE (((mr:ℚ) * q2z er) * ((mm:ℚ) * q2z em)))) * (60:ℚ)⁻¹))) * ((ma:ℚ) * q2z ea)) : ℚ) * q2z (expE (((expM (((expM (((mr:ℚ) * q2z er) * ((mm:ℚ) * q2z em)) : ℚ) * q2z (expE (((mr:ℚ) * q2z er) * ((mm:ℚ) * q2z em)))) * (60:ℚ)⁻¹) : ℚ) * q2z (expE (((expM (((mr:ℚ) * q2z er) * ((mm:ℚ) * q2z em)) : ℚ) * q2z (expE (((mr:ℚ) * q2z er) * ((mm:ℚ) * q2z em)))) * (60:ℚ)⁻¹))) * ((ma:ℚ) * q2z ea)))) * ((ma:ℚ) * q2z ea)⁻¹))) * ((mr:ℚ) * q2z er)⁻¹) : ℚ) * q2z (expE (((expM (((expM (((expM (((expM (((mr:ℚ) * q2z er) * ((mm:ℚ) * q2z em)) : ℚ) * q2z (expE (((mr:ℚ) * q2z er) * ((mm:ℚ) * q2z em)))) * (60:ℚ)⁻¹) : ℚ) * q2z (expE (((expM (((mr:ℚ) * q2z er) * ((mm:ℚ) * q2z em)) : ℚ) * q2z (expE (((mr:ℚ) * q2z er) * ((mm:ℚ) * q2z em)))) * (60:ℚ)⁻¹))) * ((ma:ℚ) * q2z ea)) : ℚ) * q2z (expE (((expM (((expM (((mr:ℚ) * q2z er) * ((mm:ℚ) * q2z em)) : ℚ) * q2z (expE (((mr:ℚ) * q2z er) * ((mm:ℚ) * q2z em)))) * (60:ℚ)⁻¹) : ℚ) * q2z (expE (((expM (((mr:ℚ) * q2z er) * ((mm:ℚ) * q2z em)) : ℚ) * q2z (expE (((mr:ℚ) * q2z er) * ((mm:ℚ) * q2z em)))) * (60:ℚ)⁻¹))) * ((ma:ℚ) * q2z ea)))) * ((ma:ℚ) * q2z ea)⁻¹) : ℚ) * q2z (expE (((expM (((expM (((expM (((mr:ℚ) * q2z er) * ((mm:ℚ) * q2z em)) : ℚ) * q2z (expE (((mr:ℚ) * q2z er) * ((mm:ℚ) * q2z em)))) * (60:ℚ)⁻¹) : ℚ) * q2z (expE (((expM (((mr:ℚ) * q2z er) * ((mm:ℚ) * q2z em)) : ℚ) * q2z (expE (((mr:ℚ) * q2z er) * ((mm:ℚ) * q2z em)))) * (60:ℚ)⁻¹))) * ((ma:ℚ) * q2z ea)) : ℚ) * q2z (expE (((expM (((expM (((mr:ℚ) * q2z er) * ((mm:ℚ) * q2z em)) : ℚ) * q2z (expE (((mr:ℚ) * q2z er) * ((mm:ℚ) * q2z em)))) * (60:ℚ)⁻¹) : ℚ) * q2z (expE (((expM (((mr:ℚ) * q2z er) * ((mm:ℚ) * q2z em)) : ℚ) * q2z (expE (((mr:ℚ) * q2z er) * ((mm:ℚ) * q2z em)))) * (60:ℚ)⁻¹))) * ((ma:ℚ) * q2z ea)))) * ((ma:ℚ) * q2z ea)⁻¹))) * ((mr:ℚ) * q2z er)⁻¹))) * (60:ℚ)) : ℚ) * q2z (expE (((expM (((expM (((expM (((expM (((expM (((mr:ℚ) * q2z er) * ((mm:ℚ) * q2z em)) : ℚ) * q2z (expE (((mr:ℚ) * q2z er) * ((mm:ℚ) * q2z em)))) * (60:ℚ)⁻¹) : ℚ) * q2z (expE (((expM (((mr:ℚ) * q2z er) * ((mm:ℚ) * q2z em)) : ℚ) * q2z (expE (((mr:ℚ) * q2z er) * ((mm:ℚ) * q2z em)))) * (60:ℚ)⁻¹))) * ((ma:ℚ) * q2z ea)) : ℚ) * q2z (expE (((expM (((expM (((mr:ℚ) * q2z er) * ((mm:ℚ) * q2z em)) : ℚ) * q2z (expE (((mr:ℚ) * q2z er) * ((mm:ℚ) * q2z em)))) * (60:ℚ)⁻¹) : ℚ) * q2z (expE (((expM (((mr:ℚ) * q2z er) * ((mm:ℚ) * q2z em)) : ℚ) * q2z (expE (((mr:ℚ) * q2z er) * ((mm:ℚ) * q2z em)))) * (60:ℚ)⁻¹))) * ((ma:ℚ) * q2z ea)))) * ((ma:ℚ) * q2z ea)⁻¹) : ℚ) * q2z (expE (((expM (((expM (((expM (((mr:ℚ) * q2z er) * ((mm:ℚ) * q2z em)) : ℚ) * q2z (expE (((mr:ℚ) * q2z er) * ((mm:ℚ) * q2z em)))) * (60:ℚ)⁻¹) : ℚ) * q2z (expE (((expM (((mr:ℚ) * q2z er) * ((mm:ℚ) * q2z em)) : ℚ) * q2z (expE (((mr:ℚ) * q2z er) * ((mm:ℚ) * q2z em)))) * (60:ℚ)⁻¹))) * ((ma:ℚ) * q2z ea)) : ℚ) * q2z (expE (((expM (((expM (((mr:ℚ) * q2z er) * ((mm:ℚ) * q2z em)) : ℚ) * q2z (expE (((mr:ℚ) * q2z er) * ((mm:ℚ) * q2z em)))) * (60:ℚ)⁻¹) : ℚ) * q2z (expE (((expM (((mr:ℚ) * q2z er) * ((mm:ℚ) * q2z em)) : ℚ) * q2z (expE (((mr:ℚ) * q2z er) * ((mm:ℚ) * q2z em)))) * (60:ℚ)⁻¹))) * ((ma:ℚ) * q2z ea)))) * ((ma:ℚ) * q2z ea)⁻¹))) * ((mr:ℚ) * q2z er)⁻¹) : ℚ) * q2z (expE (((expM (((expM (((expM (((expM (((mr:ℚ) * q2z er) * ((mm:ℚ) * q2z em)) : ℚ) * q2z (expE (((mr:ℚ) * q2z er) * ((mm:ℚ) * q2z em)))) * (60:ℚ)⁻¹) : ℚ) * q2z (expE (((expM (((mr:ℚ) * q2z er) * ((mm:ℚ) * q2z em)) : ℚ) * q2z (expE (((mr:ℚ) * q2z er) * ((mm:ℚ) * q2z em)))) * (60:ℚ)⁻¹))) * ((ma:ℚ) * q2z ea)) : ℚ) * q2z (expE (((expM (((expM (((mr:ℚ) * q2z er) * ((mm:ℚ) * q2z em)) : ℚ) * q2z (expE (((mr:ℚ) * q2z er) * ((mm:ℚ) * q2z em)))) * (60:ℚ)⁻¹) : ℚ) * q2z (expE (((expM (((mr:ℚ) * q2z er) * ((mm:ℚ) * q2z em)) : ℚ) * q2z (expE (((mr:ℚ) * q2z er) * ((mm:ℚ) * q2z em)))) * (60:ℚ)⁻¹))) * ((ma:ℚ) * q2z ea)))) * ((ma:ℚ) * q2z ea)⁻¹) : ℚ) * q2z (expE (((expM (((expM (((expM (((mr:ℚ) * q2z er) * ((mm:ℚ) * q2z em)) : ℚ) * q2z (expE (((mr:ℚ) * q2z er) * ((mm:ℚ) * q2z em)))) * (60:ℚ)⁻¹) : ℚ) * q2z (expE (((expM (((mr:ℚ) * q2z er) * ((mm:ℚ) * q2z em)) : ℚ) * q2z (expE (((mr:ℚ) * q2z er) * ((mm:ℚ) * q2z em)))) * (60:ℚ)⁻¹))) * ((ma:ℚ) * q2z ea)) : ℚ) * q2z (expE (((expM (((expM (((mr:ℚ) * q2z er) * ((mm:ℚ) * q2z em)) : ℚ) * q2z (expE (((mr:ℚ) * q2z er) * ((mm:ℚ) * q2z em)))) * (60:ℚ)⁻¹) : ℚ) * q2z (expE (((expM (((mr:ℚ) * q2z er) * ((mm:ℚ) * q2z em)) : ℚ) * q2z (expE (((mr:ℚ) * q2z er) * ((mm:ℚ) * q2z em)))) * (60:ℚ)⁻¹))) * ((ma:ℚ) * q2z ea)))) * ((ma:ℚ) * q2z ea)⁻¹))) * ((mr:ℚ) * q2z er)⁻¹))) * (60:ℚ)))) - ((mm:ℚ) * q2z em)| ≤ 6 * q2z (-52) * |((mm:ℚ) * q2z em)| := herr6
    _ ≤ q2z (-49) * |((mm:ℚ) * q2z em)| := mul_le_mul_of_nonneg_right hle (abs_nonneg _)

/-- C4 (witness): the amended theorem applied at the concrete doubles
mph = 100.0, r = 600.0, a = 3.21. -/
theorem c4_witness :
    (mph_from_oss (oss_from_mph (F64.finite 7036874417766400 (-46)) (F64.finite 5277655813324800 (-43)) (F64.finite 7228277401929646 (-51))) (F64.finite 5277655813324800 (-43)) (F64.finite 7228277401929646 (-51))).isFinite = true ∧
    |(mph_from_oss (oss_from_mph (F64.finite 7036874417766400 (-46)) (F64.finite 5277655813324800 (-43)) (F64.finite 7228277401929646 (-51))) (F64.finite 5277655813324800 (-43)) (F64.finite 7228277401929646 (-51))).toQ - (((7036874417766400:ℤ):ℚ) * q2z (-46))| ≤ q2z (-49) * |(((7036874417766400:ℤ):ℚ) * q2z (-46))| :=
  c4_roundtrip_bounded_error 7036874417766400 (-46) 5277655813324800 (-43)
    7228277401929646 (-51)
    (by decide) (by decide) (by decide) (by decide) (by decide) (by decide)
